import Mathlib

/-!
Verification of the literature-assistant backend against its specification.

Python strings are modelled as `List Char` (`PyStr`), with Python string
operations (`strip`, `startswith`, slicing) given explicit counterparts.
Stateful handlers are modelled as pure functions over explicit state, with
the outcomes of external effects (file system, database, AI provider)
supplied by oracle records, so that each control path of the source is a
computable branch of the model.
-/

/-- Model of a Python `str` as a list of characters (Python `len` counts
code points, matching `List.length`). -/
abbrev PyStr := List Char

/-- Characters stripped by Python `str.strip()` (Unicode whitespace); covers
ASCII whitespace plus the common Unicode space characters, in particular
U+3000 (ideographic space), which Python treats as whitespace. -/
def isPySpace (c : Char) : Bool :=
  let n := c.toNat
  (9 ≤ n && n ≤ 13) || n == 32 || (28 ≤ n && n ≤ 31) || n == 133 || n == 160 ||
    n == 5760 || (8192 ≤ n && n ≤ 8202) || n == 8232 || n == 8233 ||
    n == 8239 || n == 8287 || n == 12288

/-- Python `s.strip()`: drop leading and trailing whitespace. -/
def pyStrip (s : PyStr) : PyStr :=
  ((s.dropWhile isPySpace).reverse.dropWhile isPySpace).reverse

/-- Python `s.startswith(p)`. -/
def pyStartsWith : PyStr → PyStr → Bool
  | [], _ => true
  | _ :: _, [] => false
  | p :: ps, c :: cs => p = c && pyStartsWith ps cs

/-- Python `s.endswith(p)`. -/
def pyEndsWith (p s : PyStr) : Bool :=
  pyStartsWith p.reverse s.reverse

/-- Separator join, Python `sep.join(parts)`. -/
def sepJoin (sep : PyStr) : List PyStr → PyStr
  | [] => []
  | [x] => x
  | x :: xs => x ++ sep ++ sepJoin sep xs

/-!  `app/utils/file_utils.py` — storage path generation  -/

/-- Extension part of Python `os.path.splitext(name)` for a plain file name
(no directory separators): the part from the last dot on, where leading
dots of the name never start an extension. -/
def splitextExt (name : PyStr) : PyStr :=
  let leading := (name.takeWhile (fun c => c = '.')).length
  let rest := name.drop leading
  if rest.contains '.' then
    '.' :: (rest.reverse.takeWhile (fun c => decide (c ≠ '.'))).reverse
  else []

/-- Model of `generate_file_path` from `app/utils/file_utils.py`.

The source derives the stored name from the current clock second
(`datetime.now().strftime("%Y%m%d%H%M%S")`) and the first 8 hex digits of
`md5(original_filename + timestamp)`; the date directory comes from a
second `datetime.now()` call.  The MD5 hex digest is passed in as the
function `md5hex`, and clock reads are passed in as the strings
`timestamp` and `dateDir`, so the model covers every possible digest
behaviour.  Returns `(full_path, relative_path)`. -/
def generate_file_path (md5hex : PyStr → PyStr) (originalFilename : PyStr)
    (timestamp dateDir uploadDir : PyStr) : PyStr × PyStr :=
  let ext := splitextExt originalFilename
  let hashStr := (md5hex (originalFilename ++ timestamp)).take 8
  let filename := timestamp ++ ('_' :: hashStr) ++ ext
  let relativePath := dateDir ++ ('/' :: filename)
  let fullPath := uploadDir ++ ('/' :: relativePath)
  (fullPath, relativePath)

/-- One upload occurrence: `seq` distinguishes distinct uploads; `name` is
the original file name and `second`/`dateDir` are the clock reads taken
during that upload (format `%Y%m%d%H%M%S` / `%Y%m%d`). -/
structure UploadEvent where
  seq : Nat
  name : PyStr
  second : PyStr
  dateDir : PyStr
deriving DecidableEq

/-- Relative storage path generated for one upload occurrence.  The source
has no per-upload entropy beyond the clock second and the file name, so the
path cannot depend on `seq`. -/
def uploadRelativePath (md5hex : PyStr → PyStr) (u : UploadEvent) : PyStr :=
  (generate_file_path md5hex u.name u.second u.dateDir (("uploads").toList)).2

/-- Executable stand-in for the MD5 hex digest (the collision result below
holds for every digest function, so its exact values are irrelevant;
this stand-in only makes the statements closed and evaluable). -/
def md5HexModel (s : PyStr) : PyStr :=
  let n := s.foldl (fun a c => (a * 131 + c.toNat) % 4294967296) 7
  (Nat.toDigits 16 n) ++ (Nat.toDigits 16 (n * 31 % 4294967296))

/-- First upload of `paper.pdf` during clock second 2026-01-01 12:00:00. -/
def uploadA : UploadEvent :=
  { seq := 0, name := ("paper.pdf").toList,
    second := ("20260101120000").toList, dateDir := ("20260101").toList }

/-- Second, distinct upload of the same file name in the same clock second. -/
def uploadB : UploadEvent :=
  { seq := 1, name := ("paper.pdf").toList,
    second := ("20260101120000").toList, dateDir := ("20260101").toList }

/-!  `app/services/ai_service.py` — content cap before the streaming call  -/

/-- Hard cap on the content length sent to the provider (source line 85). -/
def maxContentLength : Nat := 30000

/-- Fixed truncation marker appended to over-long content. -/
def truncationMarker : PyStr := ("...(内容过长已截断)").toList

/-- Fixed instruction text prepended to the content in the user message. -/
def guidePromptHeader : PyStr := ("请为以下文献生成阅读指南：\n\n").toList

/-- Content truncation in `AIService.generate_reading_guide_stream`:
`content[:30000] + marker` when over the cap, unchanged otherwise. -/
def cappedContent (content : PyStr) : PyStr :=
  if content.length > maxContentLength then
    content.take maxContentLength ++ truncationMarker
  else content

/-- The user message built by `generate_reading_guide_stream` and sent to
the provider. -/
def guideUserMessage (content : PyStr) : PyStr :=
  guidePromptHeader ++ cappedContent content

/-!  `app/services/literature_service.py` — `update_literature`  -/

/-- Python values that flow through `update_literature` keyword arguments
and ORM attributes. -/
inductive PyVal where
  | str (s : PyStr)
  | int (n : Int)
  | list (xs : List PyStr)
  | none
deriving DecidableEq

/-- Attributes of the `Literature` ORM model (`app/models/literature.py`). -/
inductive LitField where
  | id | userId | originalName | filePath | fileSize | fileType
  | contentLength | tags | description | readingGuide | status
  | createTime | updateTime | deleted
deriving DecidableEq

/-- A `Literature` ORM object: a value for each attribute. -/
def Literature := LitField → PyVal

/-- Python `hasattr(literature, key)` together with the attribute looked up:
maps the keyword-argument name to the model attribute, `none` when the
model has no such attribute. -/
def litFieldOfName (k : PyStr) : Option LitField :=
  if k = ("id").toList then some LitField.id
  else if k = ("user_id").toList then some LitField.userId
  else if k = ("original_name").toList then some LitField.originalName
  else if k = ("file_path").toList then some LitField.filePath
  else if k = ("file_size").toList then some LitField.fileSize
  else if k = ("file_type").toList then some LitField.fileType
  else if k = ("content_length").toList then some LitField.contentLength
  else if k = ("tags").toList then some LitField.tags
  else if k = ("description").toList then some LitField.description
  else if k = ("reading_guide").toList then some LitField.readingGuide
  else if k = ("status").toList then some LitField.status
  else if k = ("create_time").toList then some LitField.createTime
  else if k = ("update_time").toList then some LitField.updateTime
  else if k = ("deleted").toList then some LitField.deleted
  else none

/-- `setattr(literature, field, value)`. -/
def setLitField (lit : Literature) (f : LitField) (v : PyVal) : Literature :=
  fun g => if g = f then v else lit g

/-- Hex digit for `\u00XX` escapes in JSON string serialization (`0`-`9`
then lowercase `a`-`f`, by character code). -/
def hexDigitChar (n : Nat) : Char :=
  Char.ofNat (if n < 10 then 48 + n else 87 + n)

/-- Escaping of one character by Python `json.dumps` with
`ensure_ascii=False`, decided on the character code. -/
def jsonEscapeChar (c : Char) : PyStr :=
  let n := c.toNat
  if n == 34 then ['\\', '"']
  else if n == 92 then ['\\', '\\']
  else if n == 10 then ['\\', 'n']
  else if n == 13 then ['\\', 'r']
  else if n == 9 then ['\\', 't']
  else if n == 8 then ['\\', 'b']
  else if n == 12 then ['\\', 'f']
  else if n < 32 then
    '\\' :: 'u' :: '0' :: '0' :: hexDigitChar (n / 16) :: [hexDigitChar (n % 16)]
  else [c]

/-- Python `json.dumps(s, ensure_ascii=False)` for one string. -/
def jsonDumpsStr (s : PyStr) : PyStr :=
  '"' :: (s.flatMap jsonEscapeChar) ++ ['"']

/-- Python `json.dumps(xs, ensure_ascii=False)` for a list of strings. -/
def jsonDumpsList (xs : List PyStr) : PyStr :=
  '[' :: sepJoin ((", ").toList) (xs.map jsonDumpsStr) ++ [']']

/-- The keyword-argument loop of `LiteratureService.update_literature`
(source lines 104-109): for each `(key, value)` pair, if the model has the
attribute, store it (serializing a list passed for `tags` as JSON);
keyword arguments naming non-existent attributes are skipped. -/
def update_literature (lit : Literature) : List (PyStr × PyVal) → Literature
  | [] => lit
  | (k, v) :: rest =>
    let lit1 :=
      match litFieldOfName k with
      | Option.none => lit
      | Option.some f =>
        let v1 :=
          if k = ("tags").toList then
            match v with
            | PyVal.list xs => PyVal.str (jsonDumpsList xs)
            | _ => v
          else v
        setLitField lit f v1
    update_literature lit1 rest

/-!  JSON values and parsing, modelling Python `json.loads`  -/

/-- JSON values as produced by `json.loads` (numbers restricted to the
integers, which suffices for every input considered here). -/
inductive Json where
  | null
  | bool (b : Bool)
  | num (n : Int)
  | str (s : PyStr)
  | arr (xs : List Json)
  | obj (kvs : List (PyStr × Json))

/-- Whitespace skipped by the JSON grammar (space, tab, newline, return). -/
def isJsonWs (c : Char) : Bool :=
  c = ' ' || c = '\t' || c = '\n' || c = '\r'

/-- Skip JSON whitespace. -/
def skipWs (s : PyStr) : PyStr := s.dropWhile isJsonWs

/-- Numeric value of one decimal digit character. -/
def digitVal (c : Char) : Nat := c.toNat - 48

/-- Decimal digits to a natural number. -/
def digitsToNat (s : PyStr) : Nat :=
  s.foldl (fun acc c => 10 * acc + digitVal c) 0

/-- Value of one hex digit (by character code), `none` when the character
is not a hex digit. -/
def hexVal (c : Char) : Option Nat :=
  let n := c.toNat
  if 48 ≤ n ∧ n ≤ 57 then some (n - 48)
  else if 97 ≤ n ∧ n ≤ 102 then some (n - 87)
  else if 65 ≤ n ∧ n ≤ 70 then some (n - 55)
  else none

/-- The character a single-letter JSON escape stands for. -/
def unescapeJsonChar (e : Char) : Option Char :=
  match e with
  | 'n' => some '\n'
  | 't' => some '\t'
  | 'r' => some '\r'
  | '"' => some '"'
  | '/' => some '/'
  | '\\' => some '\\'
  | 'b' => some '\x08'
  | 'f' => some '\x0c'
  | _ => none

/-- Parse the body of a JSON string after the opening quote, returning the
decoded characters and the remaining input. -/
def parseStringBody : PyStr → Option (PyStr × PyStr)
  | [] => none
  | '"' :: rest => some ([], rest)
  | '\\' :: 'u' :: h1 :: h2 :: h3 :: h4 :: rest =>
    (match hexVal h1, hexVal h2, hexVal h3, hexVal h4 with
     | some x1, some x2, some x3, some x4 =>
       (parseStringBody rest).map
         (fun p => (Char.ofNat (x1 * 4096 + x2 * 256 + x3 * 16 + x4) :: p.1, p.2))
     | _, _, _, _ => none)
  | '\\' :: e :: rest =>
    (match unescapeJsonChar e with
     | some c => (parseStringBody rest).map (fun p => (c :: p.1, p.2))
     | none => none)
  | c :: rest => (parseStringBody rest).map (fun p => (c :: p.1, p.2))

/-- Parse a JSON number (integer form only). -/
def parseNum (s : PyStr) : Option (Int × PyStr) :=
  let (neg, s1) := match s with
                   | '-' :: r => (true, r)
                   | r => (false, r)
  let digits := s1.takeWhile (fun c => c.isDigit)
  let rest := s1.dropWhile (fun c => c.isDigit)
  if digits = [] then none
  else
    let n : Int := Int.ofNat (digitsToNat digits)
    some (if neg then -n else n, rest)

/-- Parse modes of the JSON recursive-descent parser (one structurally
recursive function over fuel, so that it reduces definitionally). -/
inductive PMode where
  | value | arrayRest | arrayMore | objRest | objMembers

/-- Intermediate parse results for the different modes. -/
inductive POut where
  | val (j : Json)
  | vals (xs : List Json)
  | kvs (l : List (PyStr × Json))

/-- The JSON grammar: `value` parses one value; `arrayRest` the elements
after `[`; `arrayMore` the elements after a comma; `objRest` the members
after the opening brace; `objMembers` one or more `"key": value` members. -/
def parseAny : Nat → PMode → PyStr → Option (POut × PyStr)
  | 0, _, _ => none
  | Nat.succ fuel, PMode.value, s =>
    match skipWs s with
    | [] => none
    | '"' :: r => (parseStringBody r).map (fun p => (POut.val (Json.str p.1), p.2))
    | '[' :: r =>
      match parseAny fuel PMode.arrayRest r with
      | some (POut.vals xs, r1) => some (POut.val (Json.arr xs), r1)
      | _ => none
    | '\x7b' :: r =>
      match parseAny fuel PMode.objRest r with
      | some (POut.kvs l, r1) => some (POut.val (Json.obj l), r1)
      | _ => none
    | 't' :: r =>
      if pyStartsWith (("rue").toList) r then some (POut.val (Json.bool true), r.drop 3)
      else none
    | 'f' :: r =>
      if pyStartsWith (("alse").toList) r then some (POut.val (Json.bool false), r.drop 4)
      else none
    | 'n' :: r =>
      if pyStartsWith (("ull").toList) r then some (POut.val Json.null, r.drop 3)
      else none
    | s1 => (parseNum s1).map (fun p => (POut.val (Json.num p.1), p.2))
  | Nat.succ fuel, PMode.arrayRest, s =>
    match skipWs s with
    | ']' :: r => some (POut.vals [], r)
    | s1 =>
      match parseAny fuel PMode.value s1 with
      | some (POut.val v, r) =>
        (match skipWs r with
         | ',' :: r1 =>
           match parseAny fuel PMode.arrayMore r1 with
           | some (POut.vals vs, r2) => some (POut.vals (v :: vs), r2)
           | _ => none
         | ']' :: r1 => some (POut.vals [v], r1)
         | _ => none)
      | _ => none
  | Nat.succ fuel, PMode.arrayMore, s =>
    match parseAny fuel PMode.value s with
    | some (POut.val v, r) =>
      (match skipWs r with
       | ',' :: r1 =>
         match parseAny fuel PMode.arrayMore r1 with
         | some (POut.vals vs, r2) => some (POut.vals (v :: vs), r2)
         | _ => none
       | ']' :: r1 => some (POut.vals [v], r1)
       | _ => none)
    | _ => none
  | Nat.succ fuel, PMode.objRest, s =>
    match skipWs s with
    | '\x7d' :: r => some (POut.kvs [], r)
    | s1 => parseAny fuel PMode.objMembers s1
  | Nat.succ fuel, PMode.objMembers, s =>
    match skipWs s with
    | '"' :: r =>
      match parseStringBody r with
      | some (k, r1) =>
        (match skipWs r1 with
         | ':' :: r2 =>
           match parseAny fuel PMode.value r2 with
           | some (POut.val v, r3) =>
             (match skipWs r3 with
              | ',' :: r4 =>
                match parseAny fuel PMode.objMembers r4 with
                | some (POut.kvs kvs, r5) => some (POut.kvs ((k, v) :: kvs), r5)
                | _ => none
              | '\x7d' :: r4 => some (POut.kvs [(k, v)], r4)
              | _ => none)
           | _ => none
         | _ => none)
      | none => none
    | _ => none

/-- Python `json.loads`: parse one value and require only whitespace after
it (`Extra data` otherwise); `none` models `json.JSONDecodeError`. -/
def jsonLoads (s : PyStr) : Option Json :=
  match parseAny (2 * s.length + 8) PMode.value s with
  | some (POut.val v, rest) => if skipWs rest = [] then some v else none
  | _ => none

/-- Lookup in a parsed JSON object, matching Python `dict` semantics for
duplicate keys (the last occurrence wins). -/
def dictGet (kvs : List (PyStr × Json)) (k : PyStr) : Option Json :=
  (kvs.reverse.find? (fun kv => kv.1 = k)).map (fun kv => kv.2)

/-- Python `result.get(key, default)` on a parsed JSON object. -/
def pyGet (kvs : List (PyStr × Json)) (k : PyStr) (dflt : Json) : Json :=
  match dictGet kvs k with
  | some v => v
  | none => dflt

/-- Python slicing `v[:n]` on a value of unknown type: defined for lists and
strings, a `TypeError` (modelled as `none`) otherwise. -/
def pySliceTo (v : Json) (n : Nat) : Option Json :=
  match v with
  | Json.str s => some (Json.str (s.take n))
  | Json.arr xs => some (Json.arr (xs.take n))
  | _ => none

/-!  `AIService._parse_classification_result` (`app/services/ai_service.py`
lines 157-193)  -/

/-- Fixed fallback description returned when the cleaned response is empty. -/
def fallbackDescription : PyStr := ("AI 自动生成的文献描述").toList

/-- The cleaning steps of `_parse_classification_result` before `json.loads`:
strip, remove a leading ```` ```json ```` or ```` ``` ```` fence marker and a
trailing ```` ``` ```` fence marker, strip again. -/
def cleanFenced (content : PyStr) : PyStr :=
  let c1 := pyStrip content
  let c2 :=
    if pyStartsWith (("```json").toList) c1 then c1.drop 7
    else if pyStartsWith (("```").toList) c1 then c1.drop 3
    else c1
  let c3 :=
    if pyEndsWith (("```").toList) c2 then c2.take (c2.length - 3)
    else c2
  pyStrip c3

/-- Model of `AIService._parse_classification_result`.  Returns
`some (tags, description)` where both components are the raw (sliced)
Python values, or `none` when the Python code raises: only
`json.JSONDecodeError` is caught, so a response parsing to a non-object
(`result.get` → `AttributeError`) or carrying an unsliceable `tags`/`desc`
value (`TypeError`) propagates an exception. -/
def parse_classification_result (content : PyStr) : Option (Json × Json) :=
  match jsonLoads (cleanFenced content) with
  | Option.none =>
    some (Json.arr [],
      Json.str (if cleanFenced content ≠ [] then (cleanFenced content).take 200
                else fallbackDescription))
  | Option.some (Json.obj kvs) => do
    let tags ← pySliceTo (pyGet kvs (("tags").toList) (Json.arr [])) 5
    let descRaw := pyGet kvs (("desc").toList)
      (pyGet kvs (("description").toList) (Json.str []))
    let descr ← pySliceTo descRaw 200
    some (tags, descr)
  | Option.some _ => none

/-!  `app/services/file_parsers/` — content extraction  -/

/-- Result of a Python call that either returns or raises; the error carries
the exception message and whether the exception is a `LiteratureException`
(every `FileException`, `AIException`, `DatabaseException` and
`NotFoundException` is one, per `app/core/exceptions.py`). -/
inductive PyResult (α : Type) where
  | ok (a : α)
  | err (msg : PyStr) (isLit : Bool)
deriving DecidableEq

/-- Whether a call returned normally. -/
def PyResult.isOk {α : Type} : PyResult α → Bool
  | PyResult.ok _ => true
  | PyResult.err _ _ => false

/-- Model of `MarkdownParser.parse` (`markdown_parser.py` lines 12-31).

The file read is abstracted by its decode results: `utf8` is the content
decoded as UTF-8 (`none` models `UnicodeDecodeError`, e.g. for the byte
sequence `A1 A1`, which is invalid UTF-8), and `gbk` is the content decoded
as GBK on the fallback path (`none` when that read fails too; for bytes
`A1 A1` GBK yields the single ideographic space U+3000).  On the UTF-8 path
an empty-after-trim content raises `FileException` inside the `try`, which
the final `except Exception` clause wraps; on the GBK fallback path the
content is returned without any emptiness check. -/
def markdownParse (utf8 gbk : Option PyStr) : PyResult PyStr :=
  match utf8 with
  | Option.some content =>
    if pyStrip content = [] then
      PyResult.err (("Markdown文件读取失败: Markdown文件内容为空").toList) true
    else PyResult.ok content
  | Option.none =>
    match gbk with
    | Option.some content => PyResult.ok content
    | Option.none => PyResult.err (("Markdown文件编码错误").toList) true

/-- Model of `PDFParser.parse` (`pdf_parser.py` lines 11-32).  `importOk`
models the availability of PyPDF2; `pages` is the per-page result of
`page.extract_text()` (`PyResult.err` when the reader itself raises,
carrying the exception text).  Pages with falsy (empty) text are skipped,
the rest are joined by a blank line, and an empty-after-trim join raises
`FileException`, wrapped by the outer `except Exception` clause. -/
def pdfParse : Bool → PyResult (List PyStr) → PyResult PyStr
  | false, _ => PyResult.err (("PDF处理模块未安装，请安装 PyPDF2").toList) true
  | true, PyResult.err m _ => PyResult.err ((("PDF文件解析失败: ").toList) ++ m) true
  | true, PyResult.ok texts =>
    if pyStrip (sepJoin (("\n\n").toList) (texts.filter (fun t => decide (t ≠ [])))) = [] then
      PyResult.err (("PDF文件解析失败: PDF文件无法提取文本内容").toList) true
    else PyResult.ok (sepJoin (("\n\n").toList) (texts.filter (fun t => decide (t ≠ []))))

/-!  `app/services/ai_model_service.py` — AI model profiles  -/

/-- An `ai_models` row (`app/models/ai_models.py`); `isDefault` and `status`
are the stored small integers. -/
structure Profile where
  id : Nat
  userId : Nat
  name : PyStr
  provider : PyStr
  baseUrl : PyStr
  apiKey : Option PyStr
  modelName : PyStr
  maxTokens : Nat
  temperature : PyStr
  isDefault : Nat
  status : Nat
  description : Option PyStr
deriving DecidableEq

/-- The AI-model table: the rows in insertion order. -/
abbrev ProfileTable := List Profile

/-- Fields of `AIModelCreateRequest` used by `create_model`. -/
structure CreateRequest where
  name : PyStr
  provider : PyStr
  baseUrl : PyStr
  apiKey : Option PyStr
  modelName : PyStr
  maxTokens : Nat
  temperature : PyStr
  isDefault : Bool
  description : Option PyStr
deriving DecidableEq

/-- Fields of `AIModelUpdateRequest` used by `update_model` (all optional;
`none` leaves the stored value unchanged). -/
structure UpdateRequest where
  name : Option PyStr
  baseUrl : Option PyStr
  apiKey : Option PyStr
  modelName : Option PyStr
  maxTokens : Option Nat
  temperature : Option PyStr
  isDefault : Option Bool
  status : Option Nat
  description : Option PyStr
deriving DecidableEq

/-- Effect of `_clear_default_models` on one row: clear the flag when the
row is a default row of the user. -/
def clearElem (userId : Nat) (p : Profile) : Profile :=
  if p.userId = userId ∧ p.isDefault = 1 then { p with isDefault := 0 } else p

/-- `AIModelService._clear_default_models`: set `is_default = 0` on every
row of the user that currently has it set. -/
def clear_default_models (st : ProfileTable) (userId : Nat) : ProfileTable :=
  st.map (clearElem userId)

/-- `AIModelService.get_model_by_id`: the row with the given id owned by the
given user (id is a primary key, so at most one row matches; the model
returns the first). -/
def findModel (st : ProfileTable) (modelId userId : Nat) : Option Profile :=
  st.find? (fun p => p.id == modelId && p.userId == userId)

/-- Replace the first row matching `(modelId, userId)` by `f` applied to it;
other rows are untouched. -/
def setFirstMatch (modelId userId : Nat) (f : Profile → Profile) :
    ProfileTable → ProfileTable
  | [] => []
  | p :: rest =>
    if p.id = modelId ∧ p.userId = userId then f p :: rest
    else p :: setFirstMatch modelId userId f rest

/-- The row inserted by `AIModelService.create_model` (`status = 1`,
`is_default` per request); `newId` is the id the store assigns. -/
def createdRow (userId : Nat) (req : CreateRequest) (newId : Nat) : Profile :=
  { id := newId, userId := userId, name := req.name,
    provider := req.provider, baseUrl := req.baseUrl,
    apiKey := req.apiKey, modelName := req.modelName,
    maxTokens := req.maxTokens, temperature := req.temperature,
    isDefault := if req.isDefault then 1 else 0, status := 1,
    description := req.description }

/-- `AIModelService.create_model`: clear existing defaults first when the
request asks for a default, then insert the new row. -/
def create_model (st : ProfileTable) (userId : Nat) (req : CreateRequest)
    (newId : Nat) : ProfileTable :=
  (if req.isDefault then clear_default_models st userId else st)
    ++ [createdRow userId req newId]

/-- The field-by-field update applied to the fetched row by `update_model`
(source lines 159-176): every `some` request field overwrites the stored
value, `none` fields are left as they are. -/
def applyUpdateRequest (req : UpdateRequest) (p : Profile) : Profile :=
  { p with
    name := req.name.getD p.name,
    baseUrl := req.baseUrl.getD p.baseUrl,
    apiKey := match req.apiKey with | some v => some v | none => p.apiKey,
    modelName := req.modelName.getD p.modelName,
    maxTokens := req.maxTokens.getD p.maxTokens,
    temperature := req.temperature.getD p.temperature,
    isDefault := match req.isDefault with
                 | some b => if b then 1 else 0
                 | none => p.isDefault,
    status := req.status.getD p.status,
    description := match req.description with
                   | some v => some v
                   | none => p.description }

/-- `AIModelService.update_model`: `none` models `NotFoundException` when no
row matches; otherwise, when the request sets the default flag to `True`,
all the user's defaults are cleared first, and then the requested fields
are written to the fetched row. -/
def update_model (st : ProfileTable) (modelId userId : Nat)
    (req : UpdateRequest) : Option ProfileTable :=
  match findModel st modelId userId with
  | Option.none => none
  | Option.some _ =>
    let st1 := if req.isDefault = some true then clear_default_models st userId else st
    some (setFirstMatch modelId userId (applyUpdateRequest req) st1)

/-- A profile create or update operation, as issued through the service. -/
inductive ModelOp where
  | create (userId : Nat) (req : CreateRequest) (newId : Nat)
  | update (modelId userId : Nat) (req : UpdateRequest)
deriving DecidableEq

/-- Apply one operation to the table; a failing update (`NotFoundException`)
leaves the table unchanged, matching the service which raises before any
mutation. -/
def applyModelOp (st : ProfileTable) : ModelOp → ProfileTable
  | ModelOp.create userId req newId => create_model st userId req newId
  | ModelOp.update modelId userId req =>
    match update_model st modelId userId req with
    | some st1 => st1
    | none => st

/-- Apply a sequence of operations in order. -/
def applyModelOps (st : ProfileTable) (ops : List ModelOp) : ProfileTable :=
  ops.foldl applyModelOp st

/-- Whether a row is a default row of the given user. -/
def dfltP (userId : Nat) (p : Profile) : Bool :=
  p.userId == userId && p.isDefault == 1

/-- The rows of one user that carry the default flag. -/
def defaultsOf (st : ProfileTable) (userId : Nat) : ProfileTable :=
  st.filter (dfltP userId)

/-- The default-profile invariant: at most one default row per user. -/
def atMostOneDefault (st : ProfileTable) : Prop :=
  ∀ u : Nat, (defaultsOf st u).length ≤ 1

/-!  `app/api/literature.py` — the single-file generation pipeline
(`generate_reading_guide`, `event_generator`, lines 152-309)  -/

/-- One message yielded by `ai_service.generate_reading_guide_stream`: the
generator reads `message.get("type")` and `message.get("data", "")`. -/
structure StreamMsg where
  type : PyStr
  data : PyStr
deriving DecidableEq

/-- Server-sent events emitted by the two pipeline generators.  Batch-mode
events carry their file's batch index; on the wire the index is encoded
into the data field as `"<index>|<data>"`. -/
inductive Ev where
  | progress (data : PyStr)
  | start (data : PyStr)
  | content (data : PyStr)
  | complete (data : PyStr)
  | error (data : PyStr)
  | fileStart (idx : Nat) (data : PyStr)
  | fileProgress (idx : Nat) (data : PyStr)
  | fileComplete (idx : Nat) (literatureId : Nat)
  | fileError (idx : Nat) (data : PyStr)
  | batchComplete (data : PyStr)
deriving DecidableEq

/-- What `file_service.save_file` returns on success. -/
structure SaveInfo where
  fullPath : PyStr
  relativePath : PyStr
  size : Nat
  fileType : PyStr
deriving DecidableEq

/-- The session state of one literature row as the pipeline sees it. -/
structure RecordState where
  id : Nat
  status : Nat
  readingGuide : Option PyStr
  tags : Option (List PyStr)
  description : Option PyStr
deriving DecidableEq

/-- Outcomes of all external calls made during one single-file run, in
program order.  `streamMsgs` are the messages the provider stream yields
before it either finishes or raises `streamErr`; `classify` is the result
of `extract_tags_and_description`, which never raises (it catches every
exception internally and falls back); `updateFailed` is the combined
outcome of the best-effort `status=2` update and commit on the failure
path. -/
structure Oracle where
  modelAvailable : Bool
  save : PyResult SaveInfo
  extract : PyResult PyStr
  create : PyResult Nat
  commitCreate : PyResult Unit
  streamMsgs : List StreamMsg
  streamErr : Option (PyStr × Bool)
  classify : List PyStr × PyStr
  updateComplete : PyResult Unit
  commitComplete : PyResult Unit
  updateFailed : PyResult Unit
deriving DecidableEq

/-- Observable outcome of one single-file run: the emitted events, the
`literature_id` local, the session record, whether a file was saved and is
still on disk, and the exact argument passed to the classification step. -/
structure RunResult where
  events : List Ev
  literatureId : Option Nat
  record : Option RecordState
  fileSavedPath : Option PyStr
  fileOnDisk : Bool
  classifyArg : Option PyStr
deriving DecidableEq

/-- Python truthiness of the `literature_id` local (`if literature_id:`). -/
def truthyId : Option Nat → Bool
  | Option.none => false
  | Option.some n => n != 0

/-- Python truthiness of the `file_full_path` local. -/
def truthyPath : Option PyStr → Bool
  | Option.none => false
  | Option.some s => decide (s ≠ [])

/-- The best-effort `update_literature(status=2)` plus commit of the two
`except` clauses: applied when it succeeds, swallowed (`except: pass`)
when it fails. -/
def markFailed (upd : PyResult Unit) (r : Option RecordState) : Option RecordState :=
  match upd with
  | PyResult.ok _ => r.map (fun rec => { rec with status := 2 })
  | PyResult.err _ _ => r

/-- The two `except` clauses of the single-file `event_generator` (lines
268-309).  A `LiteratureException` gets the best-effort `Failed` update and
a terminal error event carrying `e.message`; any other exception gets the
same update, then file cleanup (`delete_file` swallows its own errors), and
a terminal error event carrying `"生成失败: " + str(e)`.  Only the generic
branch deletes the saved file. -/
def handleFailure (o : Oracle) (st : RunResult) (msg : PyStr) : Bool → RunResult
  | true =>
    let st1 :=
      if truthyId st.literatureId then
        { st with record := markFailed o.updateFailed st.record }
      else st
    { st1 with events := st1.events ++ [Ev.error msg] }
  | false =>
    let st1 :=
      if truthyId st.literatureId then
        { st with record := markFailed o.updateFailed st.record }
      else st
    let st2 :=
      if truthyPath st1.fileSavedPath ∧ st1.fileOnDisk then { st1 with fileOnDisk := false }
      else st1
    { st2 with events := st2.events ++ [Ev.error ((("生成失败: ").toList) ++ msg)] }

/-- The data carried by the terminal error event: the exception message
itself in the `LiteratureException` clause, the message wrapped as
`"生成失败: " + str(e)` in the generic clause. -/
def surfacedErrorMsg (msg : PyStr) : Bool → PyStr
  | true => msg
  | false => ("生成失败: ").toList ++ msg

/-- The events forwarded while consuming the provider stream: `content`
messages are forwarded as `content` events, `progress` messages as
`progress` events, anything else is dropped. -/
def streamEvents : List StreamMsg → List Ev
  | [] => []
  | m :: ms =>
    (if m.type = ("content").toList then [Ev.content m.data]
     else if m.type = ("progress").toList then [Ev.progress m.data]
     else []) ++ streamEvents ms

/-- The fragments appended to `reading_guide_parts` while consuming the
stream: exactly the data of the `content` messages, in order. -/
def streamParts : List StreamMsg → List PyStr
  | [] => []
  | m :: ms =>
    (if m.type = ("content").toList then [m.data] else []) ++ streamParts ms

/-- The single-file `event_generator` (lines 152-309), as a function of the
oracle.  Mirrors the source step by step: model resolution, save, extract,
create+commit, stream (forward and accumulate), classify, final update and
commit, completion event; every raise lands in `handleFailure`. -/
def generate_guide_run (o : Oracle) : RunResult :=
  let st0 : RunResult :=
    { events := [], literatureId := none, record := none,
      fileSavedPath := none, fileOnDisk := false, classifyArg := none }
  if ¬ o.modelAvailable then
    { st0 with events := [Ev.error (("请先在AI模型管理中配置默认AI模型").toList)] }
  else
    let st1 := { st0 with events := [Ev.progress (("正在保存文件...").toList)] }
    match o.save with
    | PyResult.err m lit => handleFailure o st1 m lit
    | PyResult.ok info =>
      let st2 := { st1 with
        fileSavedPath := some info.fullPath, fileOnDisk := true,
        events := st1.events ++ [Ev.progress (("正在解析文件内容...").toList)] }
      match o.extract with
      | PyResult.err m lit => handleFailure o st2 m lit
      | PyResult.ok _content =>
        let st3 := { st2 with
          events := st2.events ++ [Ev.progress (("正在创建文献记录...").toList)] }
        match o.create with
        | PyResult.err m lit => handleFailure o st3 m lit
        | PyResult.ok lid =>
          let st4 := { st3 with
            literatureId := some lid,
            record := some { id := lid, status := 0, readingGuide := none,
                             tags := none, description := none } }
          match o.commitCreate with
          | PyResult.err m lit => handleFailure o st4 m lit
          | PyResult.ok _ =>
            let st5 := { st4 with
              events := st4.events ++ [Ev.start (("开始生成阅读指南...").toList)] }
            let st6 := { st5 with events := st5.events ++ streamEvents o.streamMsgs }
            match o.streamErr with
            | Option.some e => handleFailure o st6 e.1 e.2
            | Option.none =>
              let guide := (streamParts o.streamMsgs).flatten
              let st7 := { st6 with
                events := st6.events ++ [Ev.progress (("正在提取标签和描述...").toList)],
                classifyArg := some guide }
              let tagsDesc := o.classify
              match o.updateComplete with
              | PyResult.err m lit => handleFailure o st7 m lit
              | PyResult.ok _ =>
                let st8 := { st7 with
                  record := st7.record.map (fun r =>
                    { r with readingGuide := some guide, tags := some tagsDesc.1,
                             description := some tagsDesc.2, status := 1 }) }
                match o.commitComplete with
                | PyResult.err m lit => handleFailure o st8 m lit
                | PyResult.ok _ =>
                  { st8 with events := st8.events ++ [Ev.complete (("阅读指南生成完成！").toList)] }

/-- Data of the `content` events of an event list, in order. -/
def contentData : List Ev → List PyStr
  | [] => []
  | Ev.content d :: es => d :: contentData es
  | _ :: es => contentData es

/-- Whether an event list contains a `complete` event. -/
def hasComplete : List Ev → Bool
  | [] => false
  | Ev.complete _ :: _ => true
  | _ :: es => hasComplete es

/-- The `error` events of an event list. -/
def errorEvents : List Ev → List Ev
  | [] => []
  | Ev.error d :: es => Ev.error d :: errorEvents es
  | _ :: es => errorEvents es

/-- The first failure that can occur once the literature record exists, in
program order: create-commit, stream, final update, final commit. -/
def firstFailureAfterCreate (o : Oracle) : Option (PyStr × Bool) :=
  match o.commitCreate with
  | PyResult.err m lit => some (m, lit)
  | PyResult.ok _ =>
    match o.streamErr with
    | Option.some e => some e
    | Option.none =>
      match o.updateComplete with
      | PyResult.err m lit => some (m, lit)
      | PyResult.ok _ =>
        match o.commitComplete with
        | PyResult.err m lit => some (m, lit)
        | PyResult.ok _ => none

/-!  `app/api/literature.py` — the batch pipeline
(`batch_import_literatures`, lines 314-513).  The upfront save phase runs
before the generator, so the generator starts from a list of already saved
files; each entry's batch index is its position in that list (assigned by
`enumerate` during the save phase).  -/

/-- One entry of `saved_files_info` (without its index, which is the
position in the list). -/
structure BatchFileInfo where
  filename : PyStr
  fullPath : PyStr
  relativePath : PyStr
  size : Nat
  fileType : PyStr
deriving DecidableEq

/-- Outcomes of the external calls made while processing one batch file
(same conventions as `Oracle`). -/
structure FileOracle where
  extract : PyResult PyStr
  create : PyResult Nat
  commitCreate : PyResult Unit
  streamMsgs : List StreamMsg
  streamErr : Option (PyStr × Bool)
  classify : List PyStr × PyStr
  updateComplete : PyResult Unit
  commitComplete : PyResult Unit
  updateFailed : PyResult Unit
deriving DecidableEq

/-- Final per-file state after the batch loop body. -/
structure FileState where
  literatureId : Option Nat
  record : Option RecordState
  fileOnDisk : Bool
deriving DecidableEq

/-- Stream forwarding in batch mode (lines 436-450): only `progress`
messages are forwarded (as `file_progress` with the file's index);
`content` messages are accumulated silently. -/
def batchStreamEvents (i : Nat) : List StreamMsg → List Ev
  | [] => []
  | m :: ms =>
    (if m.type = ("content").toList then []
     else if m.type = ("progress").toList then [Ev.fileProgress i m.data]
     else []) ++ batchStreamEvents i ms

/-- The per-file `except Exception` clause of the batch loop (lines
481-505): best-effort `Failed` update for this file's record, deletion of
this file's saved bytes, one `file_error` event carrying this file's
index and `str(e)`. -/
def batchFailure (i : Nat) (f : FileOracle) (info : BatchFileInfo)
    (st : FileState) (msg : PyStr) : List Ev × FileState :=
  let st1 :=
    if truthyId st.literatureId then { st with record := markFailed f.updateFailed st.record }
    else st
  let st2 :=
    if truthyPath (some info.fullPath) ∧ st1.fileOnDisk then { st1 with fileOnDisk := false }
    else st1
  ([Ev.fileError i msg], st2)

/-- The batch loop body for the file at index `i` (lines 389-505), starting
from its already saved bytes.  Returns the events it yields, its final
state, and whether it counted as completed. -/
def processFile (i : Nat) (info : BatchFileInfo) (f : FileOracle) :
    List Ev × FileState × Bool :=
  let st0 : FileState := { literatureId := none, record := none, fileOnDisk := true }
  let evs0 := [Ev.fileStart i info.filename,
               Ev.fileProgress i (("正在解析文件内容...").toList)]
  match f.extract with
  | PyResult.err m _ =>
    let r := batchFailure i f info st0 m
    (evs0 ++ r.1, r.2, false)
  | PyResult.ok _content =>
    let evs1 := evs0 ++ [Ev.fileProgress i (("正在创建文献记录...").toList)]
    match f.create with
    | PyResult.err m _ =>
      let r := batchFailure i f info st0 m
      (evs1 ++ r.1, r.2, false)
    | PyResult.ok lid =>
      let st1 : FileState :=
        { st0 with literatureId := some lid,
                   record := some { id := lid, status := 0, readingGuide := none,
                                    tags := none, description := none } }
      match f.commitCreate with
      | PyResult.err m _ =>
        let r := batchFailure i f info st1 m
        (evs1 ++ r.1, r.2, false)
      | PyResult.ok _ =>
        let evs2 := evs1 ++ [Ev.fileProgress i (("正在生成阅读指南...").toList)]
          ++ batchStreamEvents i f.streamMsgs
        match f.streamErr with
        | Option.some e =>
          let r := batchFailure i f info st1 e.1
          (evs2 ++ r.1, r.2, false)
        | Option.none =>
          let guide := (streamParts f.streamMsgs).flatten
          let evs3 := evs2 ++ [Ev.fileProgress i (("正在提取标签和描述...").toList)]
          let tagsDesc := f.classify
          match f.updateComplete with
          | PyResult.err m _ =>
            let r := batchFailure i f info st1 m
            (evs3 ++ r.1, r.2, false)
          | PyResult.ok _ =>
            let st2 : FileState :=
              { st1 with record := st1.record.map (fun r =>
                  { r with readingGuide := some guide, tags := some tagsDesc.1,
                           description := some tagsDesc.2, status := 1 }) }
            match f.commitComplete with
            | PyResult.err m _ =>
              let r := batchFailure i f info st2 m
              (evs3 ++ r.1, r.2, false)
            | PyResult.ok _ =>
              (evs3 ++ [Ev.fileComplete i lid], st2, true)

/-- Whether one batch file runs to completion (counts into
`completed_files`). -/
def fileSucceeds (f : FileOracle) : Bool :=
  f.extract.isOk && f.create.isOk && f.commitCreate.isOk &&
  f.streamErr.isNone && f.updateComplete.isOk && f.commitComplete.isOk

/-- Process the files from index `i` on, sequentially: concatenated events,
per-file final states (in order), completed count. -/
def processFiles (i : Nat) : List (BatchFileInfo × FileOracle) →
    List Ev × List FileState × Nat
  | [] => ([], [], 0)
  | (info, f) :: rest =>
    let r := processFile i info f
    let rs := processFiles (i + 1) rest
    (r.1 ++ rs.1, r.2.1 :: rs.2.1, (if r.2.2 then 1 else 0) + rs.2.2)

/-- Decimal rendering of a natural number, for the summary event. -/
def natStr (n : Nat) : PyStr := (Nat.repr n).toList

/-- Data of the final `batch_complete` event:
`"批量处理完成！成功: <completed>/<total>"`. -/
def batchCompleteMsg (completed total : Nat) : PyStr :=
  (("批量处理完成！成功: ").toList) ++ natStr completed ++ ('/' :: natStr total)

/-- The batch `event_generator` (lines 359-511) over the already saved
files: resolve the AI model (a single error event and no summary when none
resolves), then process every file sequentially, then always emit the
summary event.  Returns events, per-file final states, completed count. -/
def batch_import_run (modelAvailable : Bool)
    (files : List (BatchFileInfo × FileOracle)) : List Ev × List FileState × Nat :=
  if ¬ modelAvailable then
    ([Ev.error (("请先在AI模型管理中配置默认AI模型").toList)], [], 0)
  else
    let r := processFiles 0 files
    (r.1 ++ [Ev.batchComplete (batchCompleteMsg r.2.2 files.length)], r.2.1, r.2.2)

/-- Whether an event is the batch summary event. -/
def isBatchCompleteEv : Ev → Bool
  | Ev.batchComplete _ => true
  | _ => false

/-- Whether an event is a `file_error` event carrying batch index `k`. -/
def isFileErrorAt (k : Nat) : Ev → Bool
  | Ev.fileError i _ => i == k
  | _ => false

/-- The batch index an event carries, if any. -/
def evIdx : Ev → Option Nat
  | Ev.fileStart i _ => some i
  | Ev.fileProgress i _ => some i
  | Ev.fileComplete i _ => some i
  | Ev.fileError i _ => some i
  | _ => none

/-!  Concrete instances used by the closed statements below  -/

/-- A fenced classification response with 7 tags and a 300-character
description. -/
def c4TagList : List Json :=
  [Json.str (("t1").toList), Json.str (("t2").toList), Json.str (("t3").toList),
   Json.str (("t4").toList), Json.str (("t5").toList), Json.str (("t6").toList),
   Json.str (("t7").toList)]

/-- The members of the parsed object of `c4InputValid`. -/
def c4Kvs : List (PyStr × Json) :=
  [((("tags").toList), Json.arr c4TagList),
   ((("desc").toList), Json.str (List.replicate 300 'd'))]

/-- The fenced response text itself. -/
def c4InputValid : PyStr :=
  ("```json\n\x7b\"tags\": [\"t1\", \"t2\", \"t3\", \"t4\", \"t5\", \"t6\", \"t7\"], \"desc\": \"").toList
    ++ List.replicate 300 'd' ++ ("\"\x7d\n```").toList

/-- A run in which every external call succeeds and the provider yields two
content fragments around a progress message. -/
def oracleC1 : Oracle :=
  { modelAvailable := true,
    save := PyResult.ok { fullPath := ("uploads/20260101/a.md").toList,
                          relativePath := ("20260101/a.md").toList,
                          size := 11, fileType := ("md").toList },
    extract := PyResult.ok (("hello world").toList),
    create := PyResult.ok 1,
    commitCreate := PyResult.ok (),
    streamMsgs := [{ type := ("content").toList, data := ("Hello ").toList },
                   { type := ("progress").toList, data := ("生成中...").toList },
                   { type := ("content").toList, data := ("world").toList }],
    streamErr := none,
    classify := ([("intro").toList], ("short").toList),
    updateComplete := PyResult.ok (),
    commitComplete := PyResult.ok (),
    updateFailed := PyResult.ok () }

/-- A run whose final commit raises a generic (non-`LiteratureException`)
error after the record exists. -/
def oracleC2gen : Oracle :=
  { modelAvailable := true,
    save := PyResult.ok { fullPath := ("uploads/20260101/b.md").toList,
                          relativePath := ("20260101/b.md").toList,
                          size := 5, fileType := ("md").toList },
    extract := PyResult.ok (("text!").toList),
    create := PyResult.ok 7,
    commitCreate := PyResult.ok (),
    streamMsgs := [{ type := ("content").toList, data := ("Guide").toList }],
    streamErr := none,
    classify := ([], ("d").toList),
    updateComplete := PyResult.ok (),
    commitComplete := PyResult.err (("db down").toList) false,
    updateFailed := PyResult.ok () }

/-- A run whose provider stream raises mid-stream (an `AIException`, hence a
`LiteratureException`) after yielding one fragment. -/
def oracleC2lit : Oracle :=
  { modelAvailable := true,
    save := PyResult.ok { fullPath := ("uploads/20260101/c.md").toList,
                          relativePath := ("20260101/c.md").toList,
                          size := 5, fileType := ("md").toList },
    extract := PyResult.ok (("text!").toList),
    create := PyResult.ok 3,
    commitCreate := PyResult.ok (),
    streamMsgs := [{ type := ("content").toList, data := ("Par").toList }],
    streamErr := some ((("AI 服务异常: connection reset").toList), true),
    classify := ([], ("d").toList),
    updateComplete := PyResult.ok (),
    commitComplete := PyResult.ok (),
    updateFailed := PyResult.ok () }

/-- A run whose content extraction fails (`FileException`, a
`LiteratureException`) after the file was saved. -/
def oracleC3 : Oracle :=
  { modelAvailable := true,
    save := PyResult.ok { fullPath := ("uploads/20260101/d.pdf").toList,
                          relativePath := ("20260101/d.pdf").toList,
                          size := 9, fileType := ("pdf").toList },
    extract := PyResult.err (("文件内容提取失败: bad pdf").toList) true,
    create := PyResult.ok 9,
    commitCreate := PyResult.ok (),
    streamMsgs := [],
    streamErr := none,
    classify := ([], ("d").toList),
    updateComplete := PyResult.ok (),
    commitComplete := PyResult.ok (),
    updateFailed := PyResult.ok () }

/-- Saved-file info for the first batch file. -/
def batchInfo0 : BatchFileInfo :=
  { filename := ("one.md").toList, fullPath := ("uploads/20260101/one.md").toList,
    relativePath := ("20260101/one.md").toList, size := 3,
    fileType := ("md").toList }

/-- Saved-file info for the second batch file. -/
def batchInfo1 : BatchFileInfo :=
  { filename := ("two.md").toList, fullPath := ("uploads/20260101/two.md").toList,
    relativePath := ("20260101/two.md").toList, size := 4,
    fileType := ("md").toList }

/-- Batch file 0 fails during extraction. -/
def batchOracle0 : FileOracle :=
  { extract := PyResult.err (("文件内容提取失败: empty").toList) true,
    create := PyResult.ok 11,
    commitCreate := PyResult.ok (),
    streamMsgs := [],
    streamErr := none,
    classify := ([], ("d").toList),
    updateComplete := PyResult.ok (),
    commitComplete := PyResult.ok (),
    updateFailed := PyResult.ok () }

/-- Batch file 1 runs to completion. -/
def batchOracle1 : FileOracle :=
  { extract := PyResult.ok (("two!").toList),
    create := PyResult.ok 12,
    commitCreate := PyResult.ok (),
    streamMsgs := [{ type := ("content").toList, data := ("G2").toList }],
    streamErr := none,
    classify := ([("tag").toList], ("d2").toList),
    updateComplete := PyResult.ok (),
    commitComplete := PyResult.ok (),
    updateFailed := PyResult.ok () }

/-- Saved-file info for the third batch file. -/
def batchInfo2 : BatchFileInfo :=
  { filename := ("three.md").toList, fullPath := ("uploads/20260101/three.md").toList,
    relativePath := ("20260101/three.md").toList, size := 6,
    fileType := ("md").toList }

/-- Batch file 2 fails mid-stream after its record was created. -/
def batchOracle2 : FileOracle :=
  { extract := PyResult.ok (("three!").toList),
    create := PyResult.ok 13,
    commitCreate := PyResult.ok (),
    streamMsgs := [{ type := ("content").toList, data := ("G3").toList }],
    streamErr := some ((("AI 服务异常: timeout").toList), true),
    classify := ([], ("d3").toList),
    updateComplete := PyResult.ok (),
    commitComplete := PyResult.ok (),
    updateFailed := PyResult.ok () }

/-- The three-file batch used in the closed statements. -/
def batchFiles : List (BatchFileInfo × FileOracle) :=
  [(batchInfo0, batchOracle0), (batchInfo1, batchOracle1),
   (batchInfo2, batchOracle2)]

/-- A profile of user 5 that is currently the default (profile A). -/
def profileA : Profile :=
  { id := 1, userId := 5, name := ("gpt").toList, provider := ("openai_compatible").toList,
    baseUrl := ("https://x").toList, apiKey := some (("k1").toList),
    modelName := ("gpt-4").toList, maxTokens := 4096, temperature := ("0.7").toList,
    isDefault := 1, status := 1, description := none }

/-- Another profile of user 5, not currently the default (profile B). -/
def profileB : Profile :=
  { id := 2, userId := 5, name := ("kimi").toList, provider := ("openai_compatible").toList,
    baseUrl := ("https://y").toList, apiKey := some (("k2").toList),
    modelName := ("moonshot").toList, maxTokens := 2048, temperature := ("0.7").toList,
    isDefault := 0, status := 1, description := none }

/-- A profile of a different user (user 6), also a default for that user. -/
def profileC : Profile :=
  { id := 3, userId := 6, name := ("ollama").toList, provider := ("ollama").toList,
    baseUrl := ("http://z").toList, apiKey := none,
    modelName := ("llama3").toList, maxTokens := 4096, temperature := ("0.7").toList,
    isDefault := 1, status := 1, description := none }

/-- The update request that marks a profile as the default. -/
def makeDefaultReq : UpdateRequest :=
  { name := none, baseUrl := none, apiKey := none, modelName := none,
    maxTokens := none, temperature := none, isDefault := some true,
    status := none, description := none }

/-!  Theorems  -/

/-- Supporting lemma: on the UTF-8 path the Markdown parser never returns
content that is empty after trimming. -/
theorem markdownParse_utf8_ok_not_trim_empty (c s : PyStr) (gbk : Option PyStr)
    (h : markdownParse (some c) gbk = PyResult.ok s) : pyStrip s ≠ [] := by
  unfold markdownParse at h
  by_cases he : pyStrip c = []
  · simp [he] at h
  · simp [he] at h
    exact h ▸ he

/-- Supporting lemma: the PDF parser never successfully returns content that
is empty after trimming. -/
theorem pdfParse_ok_not_trim_empty (importOk : Bool) (pages : PyResult (List PyStr))
    (s : PyStr) (h : pdfParse importOk pages = PyResult.ok s) : pyStrip s ≠ [] := by
  cases importOk with
  | false => simp [pdfParse] at h
  | true =>
    cases pages with
    | err m lit => simp [pdfParse] at h
    | ok texts =>
      simp only [pdfParse] at h
      split at h
      · exact absurd h (by simp)
      · rename_i hne
        injection h with h1
        exact h1 ▸ hne

/-- C7: the claim says extraction never successfully returns text that is
empty after trimming, in particular on the Markdown parser's
fallback-encoding path.  The code violates this: for a file whose bytes are
`A1 A1` (invalid UTF-8, GBK-decoded to the single ideographic space
U+3000), the fallback path returns that whitespace-only content without the
emptiness check applied on the primary path, so extraction succeeds with
text that is empty after trimming. -/
theorem c7_markdown_fallback_skips_empty_check :
    markdownParse none (some ['　']) = PyResult.ok ['　'] ∧
    pyStrip ['　'] = [] := by
  exact ⟨rfl, by decide⟩

/-- C5: the claim says the storage paths of any two distinct uploads differ,
even for the same original filename in the same second.  The code violates
this: the path is a deterministic function of the original name and the
clock reads only (no per-upload entropy — the hash is computed from
name+timestamp), so two distinct uploads of `paper.pdf` in clock second
2026-01-01 12:00:00 get the identical relative path, for every possible
digest function. -/
theorem c5_same_second_path_collision :
    uploadA ≠ uploadB ∧
    ∀ md5hex : PyStr → PyStr,
      uploadRelativePath md5hex uploadA = uploadRelativePath md5hex uploadB := by
  refine ⟨by decide, fun md5hex => rfl⟩

/-- C6: for every extracted content string, the text embedded in the user
message sent to the provider is the content itself when its length is at
most 30,000 characters, and exactly its first 30,000 characters followed by
the fixed truncation marker otherwise. -/
theorem c6_content_cap :
    ∀ content : PyStr,
      (content.length ≤ 30000 →
        guideUserMessage content = guidePromptHeader ++ content) ∧
      (30000 < content.length →
        guideUserMessage content =
          guidePromptHeader ++ (content.take 30000 ++ truncationMarker) ∧
        (content.take 30000).length = 30000) := by
  intro content
  constructor
  · intro h
    unfold guideUserMessage cappedContent maxContentLength
    rw [if_neg (by omega)]
  · intro h
    refine ⟨?_, ?_⟩
    · unfold guideUserMessage cappedContent maxContentLength
      rw [if_pos (by omega)]
    · rw [List.length_take]
      omega

/-- Witness for C6: a 3-character content is embedded unmodified, and a
30,001-character content is truncated to its first 30,000 characters plus
the marker. -/
theorem c6_content_cap_witness :
    ((("abc").toList.length ≤ 30000 ∧
      guideUserMessage (("abc").toList) = guidePromptHeader ++ (("abc").toList)) ∧
     (30000 < (List.replicate 30001 'a').length ∧
      guideUserMessage (List.replicate 30001 'a') =
        guidePromptHeader ++ ((List.replicate 30001 'a').take 30000 ++ truncationMarker))) := by
  refine ⟨⟨by decide, (c6_content_cap _).1 (by decide)⟩,
          ⟨by simp only [List.length_replicate]; omega,
           ((c6_content_cap _).2 (by simp only [List.length_replicate]; omega)).1⟩⟩

/-- C10: `update_literature` changes only the attributes named by its
keyword arguments — (1) any attribute no keyword argument refers to keeps
its prior value, (2) a keyword argument naming a non-existent attribute is
silently skipped, and (3) a list passed for `tags` is stored as its JSON
serialization. -/
theorem c10_update_literature_frame :
    (∀ (lit : Literature) (kwargs : List (PyStr × PyVal)) (f : LitField),
      (∀ kv ∈ kwargs, litFieldOfName kv.1 ≠ some f) →
      update_literature lit kwargs f = lit f) ∧
    (∀ (lit : Literature) (k : PyStr) (v : PyVal) (rest : List (PyStr × PyVal)),
      litFieldOfName k = none →
      update_literature lit ((k, v) :: rest) = update_literature lit rest) ∧
    (∀ (lit : Literature) (xs : List PyStr),
      update_literature lit [((("tags").toList), PyVal.list xs)] LitField.tags =
        PyVal.str (jsonDumpsList xs)) := by
  refine ⟨?_, ?_, ?_⟩
  · intro lit kwargs f
    induction kwargs generalizing lit with
    | nil => intro _; rfl
    | cons kv rest ih =>
      intro h
      obtain ⟨k, v⟩ := kv
      have hk := h (k, v) (List.mem_cons_self _ _)
      have hrest := fun kv hkv => h kv (List.mem_cons_of_mem _ hkv)
      show update_literature _ rest f = lit f
      cases hkn : litFieldOfName k with
      | none =>
        exact ih lit hrest
      | some g =>
        refine (ih _ hrest).trans ?_
        have hgf : f ≠ g := by
          intro hfg
          apply hk
          show litFieldOfName k = some f
          rw [hkn, hfg]
        simp only [setLitField]
        rw [if_neg hgf]
  · intro lit k v rest hk
    show update_literature _ rest = update_literature lit rest
    rw [hk]
  · intro lit xs
    rfl

/-- Witness for C10: a `status` keyword argument leaves `tags` untouched, an
unknown keyword argument is skipped, and a tags list is stored serialized. -/
theorem c10_update_literature_frame_witness :
    ((∀ kv ∈ [((("status").toList : PyStr), PyVal.int 2)],
        litFieldOfName kv.1 ≠ some LitField.tags) ∧
      update_literature (fun _ => PyVal.none)
        [((("status").toList), PyVal.int 2)] LitField.tags = PyVal.none) ∧
    (litFieldOfName (("bogus_field").toList) = none ∧
      update_literature (fun _ => PyVal.none)
          [((("bogus_field").toList), PyVal.int 1)] =
        update_literature (fun _ => PyVal.none) []) ∧
    update_literature (fun _ => PyVal.none)
        [((("tags").toList), PyVal.list [("a").toList])] LitField.tags =
      PyVal.str (jsonDumpsList [("a").toList]) := by
  refine ⟨⟨by decide, c10_update_literature_frame.1 _ _ _ (by decide)⟩,
          ⟨by decide, c10_update_literature_frame.2.1 _ _ _ _ (by decide)⟩,
          c10_update_literature_frame.2.2 _ _⟩

/-- Counterexample to C4 as stated: the claim says malformed JSON yields the
fixed fallback description and that parsing never raises.  The code instead
returns the first 200 characters of the cleaned content (`not json` here),
which differs from the fixed fallback; and on input that is valid JSON but
not an object (`[1,2,3]`), `result.get` raises `AttributeError`
(`json.JSONDecodeError` is the only exception caught). -/
theorem c4_counterexample :
    parse_classification_result (("not json").toList) =
      some (Json.arr [], Json.str (("not json").toList)) ∧
    (("not json").toList : PyStr) ≠ fallbackDescription ∧
    parse_classification_result (("[1,2,3]").toList) = none := by
  exact ⟨rfl, by decide, rfl⟩

/-- C4 (amended): a response whose cleaned text parses as a JSON object with
a 7-entry `tags` array and a 300-character `desc` string yields exactly 5
tags and a 200-character description; a response whose cleaned text is not
valid JSON yields an empty tag list together with the first 200 characters
of the cleaned text as description — the fixed fallback description only
when the cleaned text is empty — and does not raise. -/
theorem c4_classification_parsing :
    (∀ (s : PyStr) (kvs : List (PyStr × Json)) (ts : List Json) (d : PyStr),
      jsonLoads (cleanFenced s) = some (Json.obj kvs) →
      dictGet kvs (("tags").toList) = some (Json.arr ts) →
      dictGet kvs (("desc").toList) = some (Json.str d) →
      ts.length = 7 → d.length = 300 →
      parse_classification_result s =
        some (Json.arr (ts.take 5), Json.str (d.take 200)) ∧
      (ts.take 5).length = 5 ∧ (d.take 200).length = 200) ∧
    (∀ s : PyStr,
      jsonLoads (cleanFenced s) = none →
      parse_classification_result s =
        some (Json.arr [],
          Json.str (if cleanFenced s ≠ [] then (cleanFenced s).take 200
                    else fallbackDescription))) := by
  constructor
  · intro s kvs ts d hload htags hdesc hts hd
    have h1 : pyGet kvs (("tags").toList) (Json.arr []) = Json.arr ts := by
      simp only [pyGet, htags]
    have h2 : pyGet kvs (("desc").toList)
        (pyGet kvs (("description").toList) (Json.str [])) = Json.str d := by
      simp only [pyGet, hdesc]
    refine ⟨?_, ?_, ?_⟩
    · simp only [parse_classification_result, hload, h1, h2, pySliceTo]
      rfl
    · rw [List.length_take]; omega
    · rw [List.length_take]; omega
  · intro s hnone
    simp only [parse_classification_result, hnone]

set_option maxRecDepth 100000 in
/-- Witness for C4 (amended): the concrete fenced response with 7 tags and a
300-character description, and the concrete malformed response `oops`. -/
theorem c4_classification_parsing_witness :
    (jsonLoads (cleanFenced c4InputValid) = some (Json.obj c4Kvs) ∧
     dictGet c4Kvs (("tags").toList) = some (Json.arr c4TagList) ∧
     dictGet c4Kvs (("desc").toList) = some (Json.str (List.replicate 300 'd')) ∧
     c4TagList.length = 7 ∧ (List.replicate 300 'd').length = 300 ∧
     parse_classification_result c4InputValid =
       some (Json.arr (c4TagList.take 5), Json.str ((List.replicate 300 'd').take 200))) ∧
    (jsonLoads (cleanFenced (("oops").toList)) = none ∧
     parse_classification_result (("oops").toList) =
       some (Json.arr [],
         Json.str (if cleanFenced (("oops").toList) ≠ [] then
                     (cleanFenced (("oops").toList)).take 200
                   else fallbackDescription))) := by
  have h1 : jsonLoads (cleanFenced c4InputValid) = some (Json.obj c4Kvs) := rfl
  have h2 : dictGet c4Kvs (("tags").toList) = some (Json.arr c4TagList) := rfl
  have h3 : dictGet c4Kvs (("desc").toList) =
      some (Json.str (List.replicate 300 'd')) := rfl
  have h4 : c4TagList.length = 7 := rfl
  have h5 : (List.replicate 300 'd').length = 300 := by
    simp only [List.length_replicate]
  have g1 : jsonLoads (cleanFenced (("oops").toList)) = none := rfl
  exact ⟨⟨h1, h2, h3, h4, h5,
          (c4_classification_parsing.1 c4InputValid c4Kvs c4TagList
            (List.replicate 300 'd') h1 h2 h3 h4 h5).1⟩,
         ⟨g1, c4_classification_parsing.2 (("oops").toList) g1⟩⟩

/-- After clearing a user's defaults, no row of that user has the flag. -/
theorem dfltP_clear_false (st : ProfileTable) (u : Nat) :
    ∀ p ∈ clear_default_models st u, dfltP u p = false := by
  intro p hp
  unfold clear_default_models at hp
  rw [List.mem_map] at hp
  obtain ⟨q, _, rfl⟩ := hp
  unfold clearElem
  by_cases hc : q.userId = u ∧ q.isDefault = 1
  · rw [if_pos hc]
    simp [dfltP]
  · rw [if_neg hc]
    rcases not_and_or.mp hc with h | h
    · simp [dfltP, h]
    · simp [dfltP, h]

/-- Clearing removes every default row of the cleared user. -/
theorem defaultsOf_clear_self (st : ProfileTable) (u : Nat) :
    defaultsOf (clear_default_models st u) u = [] := by
  unfold defaultsOf
  rw [List.filter_eq_nil_iff]
  intro p hp
  simp [dfltP_clear_false st u p hp]

/-- Clearing one user's defaults leaves other users' default rows as they
were. -/
theorem defaultsOf_clear_other (st : ProfileTable) (u v : Nat) (huv : v ≠ u) :
    defaultsOf (clear_default_models st u) v = defaultsOf st v := by
  induction st with
  | nil => rfl
  | cons q rest ih =>
    simp only [clear_default_models, List.map_cons] at ih ⊢
    unfold defaultsOf at ih ⊢
    rw [List.filter_cons, List.filter_cons]
    have hvu : ¬ (u = v) := fun h => huv h.symm
    unfold clearElem
    by_cases hc : q.userId = u ∧ q.isDefault = 1
    · rw [if_pos hc]
      have hq : dfltP v q = false := by
        simp [dfltP, hc.1, hvu]
      have hq1 : dfltP v { q with isDefault := 0 } = false := by
        simp [dfltP, hc.1, hvu]
      rw [hq, hq1]
      simpa using ih
    · rw [if_neg hc]
      cases hq : dfltP v q
      · simpa [hq] using ih
      · simpa [hq] using ih

/-- The filtered rows of an appended table. -/
theorem defaultsOf_append (a b : ProfileTable) (v : Nat) :
    defaultsOf (a ++ b) v = defaultsOf a v ++ defaultsOf b v := by
  unfold defaultsOf
  exact List.filter_append a b

/-- Replacing the first match can only shrink a filter when the replacement
never newly satisfies the predicate. -/
theorem filter_setFirstMatch_le (i u : Nat) (f : Profile → Profile)
    (q : Profile → Bool) (h : ∀ p, q (f p) = true → q p = true) :
    ∀ st : ProfileTable,
      ((setFirstMatch i u f st).filter q).length ≤ (st.filter q).length := by
  intro st
  induction st with
  | nil => simp [setFirstMatch]
  | cons p rest ih =>
    simp only [setFirstMatch]
    by_cases hc : p.id = i ∧ p.userId = u
    · rw [if_pos hc, List.filter_cons, List.filter_cons]
      cases hq : q (f p)
      · cases hqp : q p
        · simp
        · simp only [Bool.false_eq_true, if_false, if_pos]
          simp only [List.length_cons]
          omega
      · rw [h p hq]
        simp
    · rw [if_neg hc, List.filter_cons, List.filter_cons]
      cases hq : q p
      · simpa [hq] using ih
      · simpa [hq] using ih

/-- Replacing the first match leaves a filter unchanged when both the match
and its replacement fail the predicate. -/
theorem filter_setFirstMatch_eq (i u : Nat) (f : Profile → Profile)
    (q : Profile → Bool)
    (h : ∀ p, (p.id = i ∧ p.userId = u) → q p = false ∧ q (f p) = false) :
    ∀ st : ProfileTable, (setFirstMatch i u f st).filter q = st.filter q := by
  intro st
  induction st with
  | nil => rfl
  | cons p rest ih =>
    simp only [setFirstMatch]
    by_cases hc : p.id = i ∧ p.userId = u
    · rw [if_pos hc, List.filter_cons, List.filter_cons,
          (h p hc).1, (h p hc).2]
      simp
    · rw [if_neg hc, List.filter_cons, List.filter_cons, ih]

/-- When no row of the table satisfies the predicate, the filter after
replacing the first match is exactly the replaced row when it satisfies the
predicate. -/
theorem filter_setFirstMatch_all_false (i u : Nat) (f : Profile → Profile)
    (q : Profile → Bool) :
    ∀ st : ProfileTable, (∀ p ∈ st, q p = false) →
      (setFirstMatch i u f st).filter q =
        (match st.find? (fun p => p.id == i && p.userId == u) with
         | some m => if q (f m) then [f m] else []
         | none => []) := by
  intro st
  induction st with
  | nil => intro _; rfl
  | cons p rest ih =>
    intro hall
    have hp := hall p (List.mem_cons_self _ _)
    have hrest := fun p hp => hall p (List.mem_cons_of_mem _ hp)
    simp only [setFirstMatch]
    by_cases hc : p.id = i ∧ p.userId = u
    · rw [if_pos hc, List.filter_cons]
      have hfind : (p :: rest).find? (fun p => p.id == i && p.userId == u) = some p := by
        rw [List.find?_cons_of_pos]
        simp [hc.1, hc.2]
      rw [hfind]
      cases hq : q (f p)
      · dsimp only
        rw [hq, if_neg Bool.false_ne_true, if_neg Bool.false_ne_true]
        rw [List.filter_eq_nil_iff]
        intro x hx
        simp [hrest x hx]
      · dsimp only
        rw [hq, if_pos rfl, if_pos rfl]
        congr 1
        rw [List.filter_eq_nil_iff]
        intro x hx
        simp [hrest x hx]
    · rw [if_neg hc, List.filter_cons, hp]
      have hfind : (p :: rest).find? (fun p => p.id == i && p.userId == u) =
          rest.find? (fun p => p.id == i && p.userId == u) := by
        rw [List.find?_cons_of_neg]
        simp only [Bool.and_eq_true, beq_iff_eq]
        exact fun hpc => hc ⟨hpc.1, hpc.2⟩
      rw [hfind]
      exact ih hrest

/-- Clearing a row never changes its id. -/
theorem clearElem_id (u : Nat) (p : Profile) : (clearElem u p).id = p.id := by
  unfold clearElem
  split <;> rfl

/-- Clearing a row never changes its owner. -/
theorem clearElem_userId (u : Nat) (p : Profile) : (clearElem u p).userId = p.userId := by
  unfold clearElem
  split <;> rfl

/-- `get_model_by_id` after a clear finds the cleared version of the same
row. -/
theorem findModel_clear (st : ProfileTable) (i u : Nat) :
    findModel (clear_default_models st u) i u = (findModel st i u).map (clearElem u) := by
  induction st with
  | nil => rfl
  | cons q rest ih =>
    simp only [clear_default_models, List.map_cons, findModel] at ih ⊢
    by_cases hq : (q.id == i && q.userId == u) = true
    · have hq1 : ((clearElem u q).id == i && (clearElem u q).userId == u) = true := by
        rw [clearElem_id, clearElem_userId]
        exact hq
      rw [List.find?_cons_of_pos, List.find?_cons_of_pos]
      · rfl
      · exact hq
      · exact hq1
    · have hq1 : ¬ ((clearElem u q).id == i && (clearElem u q).userId == u) = true := by
        rw [clearElem_id, clearElem_userId]
        exact hq
      rw [List.find?_cons_of_neg, List.find?_cons_of_neg]
      · exact ih
      · exact hq
      · exact hq1

/-- The field update of `update_model` never changes the row id. -/
theorem applyUpdateRequest_id (r : UpdateRequest) (p : Profile) :
    (applyUpdateRequest r p).id = p.id := rfl

/-- The field update of `update_model` never changes the owner. -/
theorem applyUpdateRequest_userId (r : UpdateRequest) (p : Profile) :
    (applyUpdateRequest r p).userId = p.userId := rfl

/-- Requesting the default flag stores `1`. -/
theorem applyUpdateRequest_isDefault_true (r : UpdateRequest) (p : Profile)
    (h : r.isDefault = some true) : (applyUpdateRequest r p).isDefault = 1 := by
  simp [applyUpdateRequest, h]

/-- Requesting the flag off stores `0`. -/
theorem applyUpdateRequest_isDefault_false (r : UpdateRequest) (p : Profile)
    (h : r.isDefault = some false) : (applyUpdateRequest r p).isDefault = 0 := by
  simp [applyUpdateRequest, h]

/-- An absent flag request leaves the stored flag. -/
theorem applyUpdateRequest_isDefault_none (r : UpdateRequest) (p : Profile)
    (h : r.isDefault = none) : (applyUpdateRequest r p).isDefault = p.isDefault := by
  simp [applyUpdateRequest, h]

/-- Inversion of a successful `update_model` call. -/
theorem update_model_eq (st : ProfileTable) (i u : Nat) (r : UpdateRequest)
    (st1 : ProfileTable) (h : update_model st i u r = some st1) :
    st1 = setFirstMatch i u (applyUpdateRequest r)
      (if r.isDefault = some true then clear_default_models st u else st) ∧
    ∃ m, findModel st i u = some m := by
  unfold update_model at h
  cases hf : findModel st i u with
  | none =>
    rw [hf] at h
    exact absurd h (by simp)
  | some m =>
    rw [hf] at h
    injection h with h1
    exact ⟨h1.symm, m, rfl⟩

/-- After a successful `update_model` that sets the default flag, the
updated user has exactly one default row — the updated one — and every
other user's default rows are untouched. -/
theorem update_model_default_true_defaults (st st1 : ProfileTable) (u i : Nat)
    (r : UpdateRequest) (hr : r.isDefault = some true)
    (h : update_model st i u r = some st1) :
    (defaultsOf st1 u).map Profile.id = [i] ∧
    ∀ v, v ≠ u → defaultsOf st1 v = defaultsOf st v := by
  obtain ⟨hst1, m, hm⟩ := update_model_eq st i u r st1 h
  rw [if_pos hr] at hst1
  have hmpred := List.find?_some hm
  rw [Bool.and_eq_true, beq_iff_eq, beq_iff_eq] at hmpred
  constructor
  · have hall := dfltP_clear_false st u
    have hchar := filter_setFirstMatch_all_false i u (applyUpdateRequest r)
      (dfltP u) (clear_default_models st u) hall
    have hfind0 : (clear_default_models st u).find?
        (fun p => p.id == i && p.userId == u) = some (clearElem u m) := by
      show findModel (clear_default_models st u) i u = some (clearElem u m)
      rw [findModel_clear, hm]
      rfl
    have hqt : dfltP u (applyUpdateRequest r (clearElem u m)) = true := by
      unfold dfltP
      rw [applyUpdateRequest_userId, applyUpdateRequest_isDefault_true _ _ hr,
          clearElem_userId, hmpred.2]
      simp
    rw [hst1]
    unfold defaultsOf
    rw [hchar, hfind0]
    dsimp only
    rw [hqt, if_pos rfl]
    simp only [List.map_cons, List.map_nil]
    rw [applyUpdateRequest_id, clearElem_id, hmpred.1]
  · intro v hv
    have hgone : ∀ p : Profile, (p.id = i ∧ p.userId = u) →
        dfltP v p = false ∧ dfltP v (applyUpdateRequest r p) = false := by
      intro p hp
      have hpu : ¬ (p.userId == v) = true := by
        rw [hp.2, beq_iff_eq]
        exact fun hc => hv hc.symm
      constructor
      · unfold dfltP
        simp [hpu]
      · unfold dfltP
        rw [applyUpdateRequest_userId]
        simp [hpu]
    rw [hst1]
    show defaultsOf _ v = _
    unfold defaultsOf
    rw [filter_setFirstMatch_eq i u (applyUpdateRequest r) (dfltP v) hgone]
    exact defaultsOf_clear_other st u v hv

/-- One create or update operation preserves the at-most-one-default
invariant. -/
theorem applyModelOp_atMostOne (st : ProfileTable) (op : ModelOp)
    (h : atMostOneDefault st) : atMostOneDefault (applyModelOp st op) := by
  cases op with
  | create uid req newId =>
    intro v
    show (defaultsOf (create_model st uid req newId) v).length ≤ 1
    unfold create_model
    rw [defaultsOf_append]
    cases hdef : req.isDefault with
    | true =>
      rw [if_pos rfl]
      by_cases hv : v = uid
      · subst hv
        rw [defaultsOf_clear_self]
        simp [defaultsOf, dfltP, createdRow, hdef]
      · rw [defaultsOf_clear_other st uid v hv]
        have hone : defaultsOf [createdRow uid req newId] v = [] := by
          have huv : ¬ ((uid : Nat) == v) = true := by
            rw [beq_iff_eq]
            exact fun hc => hv hc.symm
          simp [defaultsOf, dfltP, createdRow, huv]
        rw [hone, List.append_nil]
        exact h v
    | false =>
      rw [if_neg Bool.false_ne_true]
      have hone : defaultsOf [createdRow uid req newId] v = [] := by
        simp [defaultsOf, dfltP, createdRow, hdef]
      rw [hone, List.append_nil]
      exact h v
  | update i uid req =>
    cases hup : update_model st i uid req with
    | none =>
      have hredux : applyModelOp st (ModelOp.update i uid req) = st := by
        simp only [applyModelOp, hup]
      rw [hredux]
      exact h
    | some st1 =>
      have hredux : applyModelOp st (ModelOp.update i uid req) = st1 := by
        simp only [applyModelOp, hup]
      rw [hredux]
      intro v
      by_cases hr : req.isDefault = some true
      · have hd := update_model_default_true_defaults st st1 uid i req hr hup
        by_cases hv : v = uid
        · subst hv
          have h1 := congrArg List.length hd.1
          simp only [List.length_map, List.length_cons, List.length_nil] at h1
          omega
        · rw [hd.2 v hv]
          exact h v
      · obtain ⟨hst1, m, hm⟩ := update_model_eq st i uid req st1 hup
        rw [if_neg hr] at hst1
        rw [hst1]
        show (defaultsOf _ v).length ≤ 1
        unfold defaultsOf
        refine le_trans (filter_setFirstMatch_le i uid _ (dfltP v) ?_ st) (h v)
        intro p hp
        unfold dfltP at hp ⊢
        rw [applyUpdateRequest_userId] at hp
        cases hdef : req.isDefault with
        | none =>
          rw [applyUpdateRequest_isDefault_none _ _ hdef] at hp
          exact hp
        | some b =>
          cases b with
          | true => exact absurd hdef hr
          | false =>
            rw [applyUpdateRequest_isDefault_false _ _ hdef] at hp
            simp at hp

/-- C8: starting from any table satisfying the at-most-one-default-per-user
invariant, every sequence of profile create and update operations preserves
it; and marking profile B as default for a user (whatever that user's
current default is) leaves exactly one default profile for that user,
namely B, without touching any other user's defaults. -/
theorem c8_default_profile_invariant :
    (∀ (st : ProfileTable) (ops : List ModelOp),
      atMostOneDefault st → atMostOneDefault (applyModelOps st ops)) ∧
    (∀ (st st1 : ProfileTable) (u idB : Nat) (r : UpdateRequest),
      atMostOneDefault st →
      r.isDefault = some true →
      update_model st idB u r = some st1 →
      atMostOneDefault st1 ∧
      (defaultsOf st1 u).map Profile.id = [idB] ∧
      ∀ v, v ≠ u → defaultsOf st1 v = defaultsOf st v) := by
  constructor
  · intro st ops
    induction ops generalizing st with
    | nil => exact fun h => h
    | cons op rest ih =>
      intro h
      exact ih _ (applyModelOp_atMostOne st op h)
  · intro st st1 u idB r hinv hr hup
    have hd := update_model_default_true_defaults st st1 u idB r hr hup
    refine ⟨?_, hd⟩
    have hredux : applyModelOp st (ModelOp.update idB u r) = st1 := by
      simp only [applyModelOp, hup]
    exact hredux ▸ applyModelOp_atMostOne st (ModelOp.update idB u r) hinv

/-- Witness for C8: user 5 owns profile A (id 1, default) and profile B
(id 2); user 6 owns a default of their own.  Marking B default leaves B as
user 5's only default and user 6 untouched. -/
theorem c8_default_profile_invariant_witness :
    (atMostOneDefault [profileA, profileB, profileC] ∧
     atMostOneDefault (applyModelOps [profileA, profileB, profileC]
       [ModelOp.update 2 5 makeDefaultReq])) ∧
    (makeDefaultReq.isDefault = some true ∧
     update_model [profileA, profileB, profileC] 2 5 makeDefaultReq =
       some [{ profileA with isDefault := 0 },
             { profileB with isDefault := 1 }, profileC] ∧
     (defaultsOf [{ profileA with isDefault := 0 },
                  { profileB with isDefault := 1 }, profileC] 5).map Profile.id =
       [2]) := by
  have hinv : atMostOneDefault [profileA, profileB, profileC] := by
    intro u
    by_cases h5 : u = 5
    · subst h5
      decide
    · by_cases h6 : u = 6
      · subst h6
        decide
      · have hA : ((5 : Nat) == u) = false := by
          rw [beq_eq_false_iff_ne]
          exact fun hc => h5 hc.symm
        have hC : ((6 : Nat) == u) = false := by
          rw [beq_eq_false_iff_ne]
          exact fun hc => h6 hc.symm
        simp [defaultsOf, dfltP, profileA, profileB, profileC, hA, hC]
  have hup : update_model [profileA, profileB, profileC] 2 5 makeDefaultReq =
      some [{ profileA with isDefault := 0 },
            { profileB with isDefault := 1 }, profileC] := rfl
  exact ⟨⟨hinv, c8_default_profile_invariant.1 _ _ hinv⟩,
         ⟨rfl, hup,
          (c8_default_profile_invariant.2 _ _ 5 2 makeDefaultReq hinv rfl hup).2.1⟩⟩

/-- Content fragments distribute over event-list concatenation. -/
theorem contentData_append (a b : List Ev) :
    contentData (a ++ b) = contentData a ++ contentData b := by
  induction a with
  | nil => rfl
  | cons e rest ih => cases e <;> simp [contentData, ih]

/-- The content events forwarded from the stream carry exactly the
accumulated fragments, in order. -/
theorem contentData_streamEvents (ms : List StreamMsg) :
    contentData (streamEvents ms) = streamParts ms := by
  induction ms with
  | nil => rfl
  | cons m rest ih =>
    simp only [streamEvents, streamParts]
    rw [contentData_append, ih]
    congr 1
    split_ifs <;> simp [contentData]

/-- Completion detection distributes over concatenation. -/
theorem hasComplete_append (a b : List Ev) :
    hasComplete (a ++ b) = (hasComplete a || hasComplete b) := by
  induction a with
  | nil => simp [hasComplete]
  | cons e rest ih => cases e <;> simp [hasComplete, ih]

/-- The stream loop never emits a `complete` event. -/
theorem hasComplete_streamEvents (ms : List StreamMsg) :
    hasComplete (streamEvents ms) = false := by
  induction ms with
  | nil => rfl
  | cons m rest ih =>
    simp only [streamEvents]
    rw [hasComplete_append, ih]
    split_ifs <;> simp [hasComplete]

/-- A `LiteratureException` lands in the first `except` clause: it appends
exactly one error event carrying the exception message. -/
theorem handleFailure_events_lit (o : Oracle) (st : RunResult) (m : PyStr) :
    (handleFailure o st m true).events = st.events ++ [Ev.error m] := by
  simp only [handleFailure]
  split <;> rfl

/-- A generic exception lands in the second `except` clause: it appends
exactly one error event carrying the wrapped message. -/
theorem handleFailure_events_gen (o : Oracle) (st : RunResult) (m : PyStr) :
    (handleFailure o st m false).events =
      st.events ++ [Ev.error ((("生成失败: ").toList) ++ m)] := by
  simp only [handleFailure]
  split <;> split <;> rfl

/-- The first `except` clause never touches the saved file. -/
theorem handleFailure_fileOnDisk_lit (o : Oracle) (st : RunResult) (m : PyStr) :
    (handleFailure o st m true).fileOnDisk = st.fileOnDisk := by
  simp only [handleFailure]
  split <;> rfl

/-- Neither `except` clause changes which record exists or its identity
beyond the status write. -/
theorem handleFailure_record_lit (o : Oracle) (st : RunResult) (m : PyStr) :
    (handleFailure o st m true).record =
      (if truthyId st.literatureId then markFailed o.updateFailed st.record
       else st.record) := by
  simp only [handleFailure]
  split <;> simp_all

/-- Failure handling never emits a `complete` event. -/
theorem hasComplete_handleFailure (o : Oracle) (st : RunResult) (m : PyStr)
    (lit : Bool) :
    hasComplete (handleFailure o st m lit).events = hasComplete st.events := by
  cases lit
  · rw [handleFailure_events_gen, hasComplete_append]
    simp [hasComplete]
  · rw [handleFailure_events_lit, hasComplete_append]
    simp [hasComplete]

/-- C1: in every single-file run that reaches completion (a `complete` event
is emitted), the reading guide persisted in the literature record equals
the concatenation, in order, of all fragments forwarded as `content`
events, and the text passed to the classification step is that same
concatenation. -/
theorem c1_stream_roundtrip :
    ∀ o : Oracle, hasComplete (generate_guide_run o).events = true →
      (generate_guide_run o).classifyArg =
        some ((contentData (generate_guide_run o).events).flatten) ∧
      ((generate_guide_run o).record).map RecordState.readingGuide =
        some (some ((contentData (generate_guide_run o).events).flatten)) := by
  intro o h
  cases hma : o.modelAvailable with
  | false =>
    exfalso
    simp [generate_guide_run, hma, hasComplete] at h
  | true =>
    cases hsave : o.save with
    | err m lit =>
      exfalso
      simp [generate_guide_run, hma, hsave, hasComplete_handleFailure,
            hasComplete] at h
    | ok info =>
      cases hext : o.extract with
      | err m lit =>
        exfalso
        simp [generate_guide_run, hma, hsave, hext, hasComplete_handleFailure,
              hasComplete] at h
      | ok content =>
        cases hcr : o.create with
        | err m lit =>
          exfalso
          simp [generate_guide_run, hma, hsave, hext, hcr,
                hasComplete_handleFailure, hasComplete] at h
        | ok lid =>
          cases hcc : o.commitCreate with
          | err m lit =>
            exfalso
            simp [generate_guide_run, hma, hsave, hext, hcr, hcc,
                  hasComplete_handleFailure, hasComplete] at h
          | ok u1 =>
            cases hse : o.streamErr with
            | some e =>
              exfalso
              simp [generate_guide_run, hma, hsave, hext, hcr, hcc, hse,
                    hasComplete_handleFailure, hasComplete_append,
                    hasComplete_streamEvents, hasComplete] at h
            | none =>
              cases huc : o.updateComplete with
              | err m lit =>
                exfalso
                simp [generate_guide_run, hma, hsave, hext, hcr, hcc, hse, huc,
                      hasComplete_handleFailure, hasComplete_append,
                      hasComplete_streamEvents, hasComplete] at h
              | ok u2 =>
                cases hfc : o.commitComplete with
                | err m lit =>
                  exfalso
                  simp [generate_guide_run, hma, hsave, hext, hcr, hcc, hse,
                        huc, hfc, hasComplete_handleFailure, hasComplete_append,
                        hasComplete_streamEvents, hasComplete] at h
                | ok u3 =>
                  constructor
                  · simp [generate_guide_run, hma, hsave, hext, hcr, hcc, hse,
                          huc, hfc, contentData_append, contentData_streamEvents,
                          contentData]
                  · simp [generate_guide_run, hma, hsave, hext, hcr, hcc, hse,
                          huc, hfc, contentData_append, contentData_streamEvents,
                          contentData]

/-- Error events distribute over concatenation. -/
theorem errorEvents_append (a b : List Ev) :
    errorEvents (a ++ b) = errorEvents a ++ errorEvents b := by
  induction a with
  | nil => rfl
  | cons e rest ih => cases e <;> simp [errorEvents, ih]

/-- The stream loop never emits an `error` event. -/
theorem errorEvents_streamEvents (ms : List StreamMsg) :
    errorEvents (streamEvents ms) = [] := by
  induction ms with
  | nil => rfl
  | cons m rest ih =>
    simp only [streamEvents]
    rw [errorEvents_append, ih]
    split_ifs <;> simp [errorEvents]

/-- An event list ending in a known final event has it as its last
element, also under a leading cons. -/
theorem getLast?_cons_append_singleton (x a : Ev) (l : List Ev) :
    (x :: (l ++ [a])).getLast? = some a := by
  show ((x :: l) ++ [a]).getLast? = some a
  exact List.getLast?_concat _

/-- Same, with a two-event tail. -/
theorem getLast?_cons_append_pair (x a b : Ev) (l : List Ev) :
    (x :: (l ++ [a, b])).getLast? = some b := by
  show ((x :: l) ++ [a, b]).getLast? = some b
  rw [show (x :: l) ++ [a, b] = ((x :: l) ++ [a]) ++ [b] by simp]
  exact List.getLast?_concat _

/-- Both `except` clauses append exactly one error event, whose data is the
surfaced message of the exception class. -/
theorem handleFailure_events_surfaced (o : Oracle) (st : RunResult) (m : PyStr)
    (lit : Bool) :
    (handleFailure o st m lit).events =
      st.events ++ [Ev.error (surfacedErrorMsg m lit)] := by
  cases lit
  · rw [handleFailure_events_gen]
    rfl
  · rw [handleFailure_events_lit]
    rfl

/-- Both `except` clauses perform the same best-effort status write. -/
theorem handleFailure_record (o : Oracle) (st : RunResult) (m : PyStr)
    (lit : Bool) :
    (handleFailure o st m lit).record =
      (if truthyId st.literatureId then markFailed o.updateFailed st.record
       else st.record) := by
  cases lit
  · by_cases ht : truthyId st.literatureId = true
    · simp only [handleFailure, ht, if_true]
      split <;> rfl
    · simp only [handleFailure, ht, Bool.false_eq_true, if_false]
      split <;> rfl
  · by_cases ht : truthyId st.literatureId = true
    · simp only [handleFailure, ht, if_true]
    · simp only [handleFailure, ht, Bool.false_eq_true, if_false]

/-- The generic `except` clause deletes the saved file whenever the path is
truthy and the file is still on disk. -/
theorem handleFailure_fileOnDisk_gen (o : Oracle) (st : RunResult) (m : PyStr)
    (h1 : truthyPath st.fileSavedPath = true) (h2 : st.fileOnDisk = true) :
    (handleFailure o st m false).fileOnDisk = false := by
  simp only [handleFailure]
  split <;> simp [h1, h2]

/-- C2 (amended): for every failure raised after the literature record has
been created, a single terminal `error` event is emitted carrying the
original error (its message verbatim for a `LiteratureException`, wrapped
as `"生成失败: " + str(e)` for a generic exception), no `complete` event is
emitted, and — the best-effort status write, whose own error is swallowed —
the record ends with status Failed whenever that write succeeds.  The saved
file is left on disk when the failure is a `LiteratureException` (in
particular every provider failure, which reaches the generator as
`AIException`), but is deleted by the generic clause even though the record
exists. -/
theorem c2_failure_after_record (o : Oracle) (info : SaveInfo) (content : PyStr)
    (lid : Nat) (e : PyStr × Bool)
    (hma : o.modelAvailable = true)
    (hsave : o.save = PyResult.ok info)
    (hext : o.extract = PyResult.ok content)
    (hcr : o.create = PyResult.ok lid)
    (hlid : lid ≠ 0)
    (hff : firstFailureAfterCreate o = some e) :
    errorEvents (generate_guide_run o).events =
      [Ev.error (surfacedErrorMsg e.1 e.2)] ∧
    hasComplete (generate_guide_run o).events = false ∧
    (generate_guide_run o).events.getLast? =
      some (Ev.error (surfacedErrorMsg e.1 e.2)) ∧
    (o.updateFailed = PyResult.ok () →
      ((generate_guide_run o).record).map RecordState.status = some 2) ∧
    (e.2 = true → (generate_guide_run o).fileOnDisk = true) ∧
    (e.2 = false → info.fullPath ≠ [] →
      (generate_guide_run o).fileOnDisk = false) := by
  cases hcc : o.commitCreate with
  | err m lit =>
    have he : e = (m, lit) := by
      unfold firstFailureAfterCreate at hff
      rw [hcc] at hff
      exact (Option.some.injEq _ _).mp hff |>.symm
    subst he
    refine ⟨?_, ?_, ?_, ?_, ?_, ?_⟩
    · simp [generate_guide_run, hma, hsave, hext, hcr, hcc,
            handleFailure_events_surfaced, errorEvents_append, errorEvents]
    · simp [generate_guide_run, hma, hsave, hext, hcr, hcc,
            hasComplete_handleFailure, hasComplete_append, hasComplete]
    · simp [generate_guide_run, hma, hsave, hext, hcr, hcc,
            handleFailure_events_surfaced, List.getLast?_concat,
            getLast?_cons_append_singleton, getLast?_cons_append_pair]
    · intro hupd
      simp [generate_guide_run, hma, hsave, hext, hcr, hcc,
            handleFailure_record, truthyId, hlid, hupd, markFailed]
    · intro hl
      have hl2 : lit = true := hl
      subst hl2
      simp [generate_guide_run, hma, hsave, hext, hcr, hcc,
            handleFailure_fileOnDisk_lit]
    · intro hl hpath
      have hl2 : lit = false := hl
      subst hl2
      have hred := handleFailure_fileOnDisk_gen o
        { events := [Ev.progress (("正在保存文件...").toList),
                     Ev.progress (("正在解析文件内容...").toList),
                     Ev.progress (("正在创建文献记录...").toList)],
          literatureId := some lid,
          record := some { id := lid, status := 0, readingGuide := none,
                           tags := none, description := none },
          fileSavedPath := some info.fullPath, fileOnDisk := true,
          classifyArg := none } m
        (by simp [truthyPath, hpath]) rfl
      simpa [generate_guide_run, hma, hsave, hext, hcr, hcc] using hred
  | ok u1 =>
    cases hse : o.streamErr with
    | some e1 =>
      have he : e = e1 := by
        unfold firstFailureAfterCreate at hff
        rw [hcc, hse] at hff
        exact (Option.some.injEq _ _).mp hff |>.symm
      subst he
      obtain ⟨m, lit⟩ := e
      refine ⟨?_, ?_, ?_, ?_, ?_, ?_⟩
      · simp [generate_guide_run, hma, hsave, hext, hcr, hcc, hse,
              handleFailure_events_surfaced, errorEvents_append,
              errorEvents_streamEvents, errorEvents]
      · simp [generate_guide_run, hma, hsave, hext, hcr, hcc, hse,
              hasComplete_handleFailure, hasComplete_append,
              hasComplete_streamEvents, hasComplete]
      · simp [generate_guide_run, hma, hsave, hext, hcr, hcc, hse,
              handleFailure_events_surfaced, List.getLast?_concat,
              getLast?_cons_append_singleton, getLast?_cons_append_pair]
      · intro hupd
        simp [generate_guide_run, hma, hsave, hext, hcr, hcc, hse,
              handleFailure_record, truthyId, hlid, hupd, markFailed]
      · intro hl
        have hl2 : lit = true := hl
        subst hl2
        simp [generate_guide_run, hma, hsave, hext, hcr, hcc, hse,
              handleFailure_fileOnDisk_lit]
      · intro hl hpath
        have hl2 : lit = false := hl
        subst hl2
        have hred := handleFailure_fileOnDisk_gen o
          { events := [Ev.progress (("正在保存文件...").toList),
                       Ev.progress (("正在解析文件内容...").toList),
                       Ev.progress (("正在创建文献记录...").toList),
                       Ev.start (("开始生成阅读指南...").toList)]
              ++ streamEvents o.streamMsgs,
            literatureId := some lid,
            record := some { id := lid, status := 0, readingGuide := none,
                             tags := none, description := none },
            fileSavedPath := some info.fullPath, fileOnDisk := true,
            classifyArg := none } m
          (by simp [truthyPath, hpath]) rfl
        simpa [generate_guide_run, hma, hsave, hext, hcr, hcc, hse] using hred
    | none =>
      cases huc : o.updateComplete with
      | err m lit =>
        have he : e = (m, lit) := by
          unfold firstFailureAfterCreate at hff
          rw [hcc, hse, huc] at hff
          exact (Option.some.injEq _ _).mp hff |>.symm
        subst he
        refine ⟨?_, ?_, ?_, ?_, ?_, ?_⟩
        · simp [generate_guide_run, hma, hsave, hext, hcr, hcc, hse, huc,
                handleFailure_events_surfaced, errorEvents_append,
                errorEvents_streamEvents, errorEvents]
        · simp [generate_guide_run, hma, hsave, hext, hcr, hcc, hse, huc,
                hasComplete_handleFailure, hasComplete_append,
                hasComplete_streamEvents, hasComplete]
        · simp [generate_guide_run, hma, hsave, hext, hcr, hcc, hse, huc,
                handleFailure_events_surfaced, List.getLast?_concat,
                getLast?_cons_append_singleton, getLast?_cons_append_pair]
        · intro hupd
          simp [generate_guide_run, hma, hsave, hext, hcr, hcc, hse, huc,
                handleFailure_record, truthyId, hlid, hupd, markFailed]
        · intro hl
          have hl2 : lit = true := hl
          subst hl2
          simp [generate_guide_run, hma, hsave, hext, hcr, hcc, hse, huc,
                handleFailure_fileOnDisk_lit]
        · intro hl hpath
          have hl2 : lit = false := hl
          subst hl2
          have hred := handleFailure_fileOnDisk_gen o
            { events := ([Ev.progress (("正在保存文件...").toList),
                          Ev.progress (("正在解析文件内容...").toList),
                          Ev.progress (("正在创建文献记录...").toList),
                          Ev.start (("开始生成阅读指南...").toList)]
                ++ streamEvents o.streamMsgs)
                ++ [Ev.progress (("正在提取标签和描述...").toList)],
              literatureId := some lid,
              record := some { id := lid, status := 0, readingGuide := none,
                               tags := none, description := none },
              fileSavedPath := some info.fullPath, fileOnDisk := true,
              classifyArg := some ((streamParts o.streamMsgs).flatten) } m
            (by simp [truthyPath, hpath]) rfl
          simpa [generate_guide_run, hma, hsave, hext, hcr, hcc, hse, huc]
            using hred
      | ok u2 =>
        cases hfc : o.commitComplete with
        | err m lit =>
          have he : e = (m, lit) := by
            unfold firstFailureAfterCreate at hff
            rw [hcc, hse, huc, hfc] at hff
            exact (Option.some.injEq _ _).mp hff |>.symm
          subst he
          refine ⟨?_, ?_, ?_, ?_, ?_, ?_⟩
          · simp [generate_guide_run, hma, hsave, hext, hcr, hcc, hse, huc, hfc,
                  handleFailure_events_surfaced, errorEvents_append,
                  errorEvents_streamEvents, errorEvents]
          · simp [generate_guide_run, hma, hsave, hext, hcr, hcc, hse, huc, hfc,
                  hasComplete_handleFailure, hasComplete_append,
                  hasComplete_streamEvents, hasComplete]
          · simp [generate_guide_run, hma, hsave, hext, hcr, hcc, hse, huc, hfc,
                  handleFailure_events_surfaced, List.getLast?_concat,
                  getLast?_cons_append_singleton, getLast?_cons_append_pair]
          · intro hupd
            simp [generate_guide_run, hma, hsave, hext, hcr, hcc, hse, huc, hfc,
                  handleFailure_record, truthyId, hlid, hupd, markFailed]
          · intro hl
            have hl2 : lit = true := hl
            subst hl2
            simp [generate_guide_run, hma, hsave, hext, hcr, hcc, hse, huc, hfc,
                  handleFailure_fileOnDisk_lit]
          · intro hl hpath
            have hl2 : lit = false := hl
            subst hl2
            have hred := handleFailure_fileOnDisk_gen o
              { events := ([Ev.progress (("正在保存文件...").toList),
                            Ev.progress (("正在解析文件内容...").toList),
                            Ev.progress (("正在创建文献记录...").toList),
                            Ev.start (("开始生成阅读指南...").toList)]
                  ++ streamEvents o.streamMsgs)
                  ++ [Ev.progress (("正在提取标签和描述...").toList)],
                literatureId := some lid,
                record := (some { id := lid, status := 0, readingGuide := none,
                                  tags := none,
                                  description := none : RecordState }).map
                  (fun r => { r with
                    readingGuide := some ((streamParts o.streamMsgs).flatten),
                    tags := some o.classify.1,
                    description := some o.classify.2, status := 1 }),
                fileSavedPath := some info.fullPath, fileOnDisk := true,
                classifyArg := some ((streamParts o.streamMsgs).flatten) } m
              (by simp [truthyPath, hpath]) rfl
            simpa [generate_guide_run, hma, hsave, hext, hcr, hcc, hse, huc, hfc]
              using hred
        | ok u3 =>
          exfalso
          unfold firstFailureAfterCreate at hff
          rw [hcc, hse, huc, hfc] at hff
          exact Option.noConfusion hff

/-- When no record exists yet, neither `except` clause creates or changes
one. -/
theorem handleFailure_record_of_id_false (o : Oracle) (st : RunResult)
    (m : PyStr) (lit : Bool) (h : truthyId st.literatureId = false) :
    (handleFailure o st m lit).record = st.record := by
  cases lit
  · simp only [handleFailure, h, Bool.false_eq_true, if_false]
    split <;> rfl
  · simp only [handleFailure, h, Bool.false_eq_true, if_false]

/-- Counterexample to C2 as stated: a generic (non-`LiteratureException`)
failure after the record exists — here the final commit raising a raw
database error — lands in the second `except` clause, which deletes the
saved file even though the record exists, contradicting the claim that the
file is left on disk whenever the record exists. -/
theorem c2_counterexample :
    (generate_guide_run oracleC2gen).record.isSome = true ∧
    ((generate_guide_run oracleC2gen).record).map RecordState.status = some 2 ∧
    (generate_guide_run oracleC2gen).fileOnDisk = false := by
  exact ⟨rfl, rfl, rfl⟩

/-- Witness for C2 (amended), exercising both `except` clauses: a provider
stream failure mid-run (`AIException`, a `LiteratureException`: verbatim
message, file kept) and a raw commit failure (generic: wrapped message,
file deleted). -/
theorem c2_failure_after_record_witness :
    (oracleC2lit.modelAvailable = true ∧
     oracleC2lit.create = PyResult.ok 3 ∧
     (3 : Nat) ≠ 0 ∧
     firstFailureAfterCreate oracleC2lit =
       some ((("AI 服务异常: connection reset").toList), true)) ∧
    (errorEvents (generate_guide_run oracleC2lit).events =
       [Ev.error (("AI 服务异常: connection reset").toList)] ∧
     hasComplete (generate_guide_run oracleC2lit).events = false ∧
     (generate_guide_run oracleC2lit).events.getLast? =
       some (Ev.error (("AI 服务异常: connection reset").toList)) ∧
     (generate_guide_run oracleC2lit).fileOnDisk = true ∧
     ((generate_guide_run oracleC2lit).record).map RecordState.status = some 2) ∧
    (oracleC2gen.modelAvailable = true ∧
     oracleC2gen.create = PyResult.ok 7 ∧
     (7 : Nat) ≠ 0 ∧
     firstFailureAfterCreate oracleC2gen =
       some ((("db down").toList), false)) ∧
    (errorEvents (generate_guide_run oracleC2gen).events =
       [Ev.error (("生成失败: db down").toList)] ∧
     hasComplete (generate_guide_run oracleC2gen).events = false ∧
     (generate_guide_run oracleC2gen).events.getLast? =
       some (Ev.error (("生成失败: db down").toList)) ∧
     (generate_guide_run oracleC2gen).fileOnDisk = false ∧
     ((generate_guide_run oracleC2gen).record).map RecordState.status = some 2) := by
  have h1 := c2_failure_after_record oracleC2lit
    { fullPath := ("uploads/20260101/c.md").toList,
      relativePath := ("20260101/c.md").toList, size := 5,
      fileType := ("md").toList }
    (("text!").toList) 3 ((("AI 服务异常: connection reset").toList), true)
    rfl rfl rfl rfl (by decide) rfl
  have h2 := c2_failure_after_record oracleC2gen
    { fullPath := ("uploads/20260101/b.md").toList,
      relativePath := ("20260101/b.md").toList, size := 5,
      fileType := ("md").toList }
    (("text!").toList) 7 ((("db down").toList), false)
    rfl rfl rfl rfl (by decide) rfl
  refine ⟨⟨rfl, rfl, by decide, rfl⟩,
    ⟨h1.1, h1.2.1, h1.2.2.1, h1.2.2.2.2.1 rfl, h1.2.2.2.1 rfl⟩,
    ⟨rfl, rfl, by decide, rfl⟩,
    ⟨h2.1, h2.2.1, h2.2.2.1, h2.2.2.2.2.2 rfl (by decide), h2.2.2.2.1 rfl⟩⟩

/-- C3 (amended): when content extraction fails (always a `FileException`,
hence a `LiteratureException`), a single error event carrying the failure
message is emitted, no `complete` event is emitted and no literature record
is created — but the already-saved file is NOT deleted (the domain-error
clause has no cleanup; see the counterexample).  In general a record exists
only when both the save and the extraction succeeded. -/
theorem c3_extraction_failure_no_record :
    (∀ (o : Oracle) (info : SaveInfo) (m : PyStr),
      o.modelAvailable = true →
      o.save = PyResult.ok info →
      o.extract = PyResult.err m true →
      errorEvents (generate_guide_run o).events = [Ev.error m] ∧
      hasComplete (generate_guide_run o).events = false ∧
      (generate_guide_run o).record = none ∧
      (generate_guide_run o).fileOnDisk = true) ∧
    (∀ o : Oracle, (generate_guide_run o).record.isSome = true →
      o.save.isOk = true ∧ o.extract.isOk = true) := by
  constructor
  · intro o info m hma hsave hext
    refine ⟨?_, ?_, ?_, ?_⟩
    · simp [generate_guide_run, hma, hsave, hext, handleFailure_events_lit,
            errorEvents_append, errorEvents]
    · simp [generate_guide_run, hma, hsave, hext, hasComplete_handleFailure,
            hasComplete]
    · simp [generate_guide_run, hma, hsave, hext,
            handleFailure_record_of_id_false, truthyId]
    · simp [generate_guide_run, hma, hsave, hext, handleFailure_fileOnDisk_lit]
  · intro o h
    cases hma : o.modelAvailable with
    | false =>
      exfalso
      simp [generate_guide_run, hma] at h
    | true =>
      cases hsave : o.save with
      | err m lit =>
        exfalso
        simp [generate_guide_run, hma, hsave,
              handleFailure_record_of_id_false, truthyId] at h
      | ok info =>
        cases hext : o.extract with
        | err m lit =>
          exfalso
          simp [generate_guide_run, hma, hsave, hext,
                handleFailure_record_of_id_false, truthyId] at h
        | ok c =>
          exact ⟨by simp [PyResult.isOk, hsave], by simp [PyResult.isOk, hext]⟩

/-- Counterexample to C3 as stated: extraction failure raises
`FileException`, a `LiteratureException`, whose `except` clause has no file
cleanup — the saved file stays on disk, contradicting the claimed
deletion. -/
theorem c3_counterexample :
    oracleC3.extract = PyResult.err (("文件内容提取失败: bad pdf").toList) true ∧
    (generate_guide_run oracleC3).record = none ∧
    (generate_guide_run oracleC3).fileOnDisk = true := by
  exact ⟨rfl, rfl, rfl⟩

/-- Witness for C3 (amended): the concrete extraction-failure run, and the
concrete fully successful run showing a record implies save+extract
succeeded. -/
theorem c3_extraction_failure_no_record_witness :
    (oracleC3.modelAvailable = true ∧
     errorEvents (generate_guide_run oracleC3).events =
       [Ev.error (("文件内容提取失败: bad pdf").toList)] ∧
     (generate_guide_run oracleC3).record = none ∧
     (generate_guide_run oracleC3).fileOnDisk = true) ∧
    ((generate_guide_run oracleC1).record.isSome = true ∧
     oracleC1.save.isOk = true ∧ oracleC1.extract.isOk = true) := by
  have h1 := c3_extraction_failure_no_record.1 oracleC3
    { fullPath := ("uploads/20260101/d.pdf").toList,
      relativePath := ("20260101/d.pdf").toList, size := 9,
      fileType := ("pdf").toList }
    (("文件内容提取失败: bad pdf").toList) rfl rfl rfl
  have h2 := c3_extraction_failure_no_record.2 oracleC1 rfl
  exact ⟨⟨rfl, h1.1, h1.2.2.1, h1.2.2.2⟩, ⟨rfl, h2.1, h2.2⟩⟩

/-- Witness for C1: the all-successful run with two content fragments. -/
theorem c1_stream_roundtrip_witness :
    hasComplete (generate_guide_run oracleC1).events = true ∧
    (generate_guide_run oracleC1).classifyArg =
      some ((contentData (generate_guide_run oracleC1).events).flatten) ∧
    ((generate_guide_run oracleC1).record).map RecordState.readingGuide =
      some (some ((contentData (generate_guide_run oracleC1).events).flatten)) := by
  have h := c1_stream_roundtrip oracleC1 rfl
  exact ⟨rfl, h.1, h.2⟩

/-- The batch stream loop emits only `file_progress` events of its own
index: no `file_error`. -/
theorem filter_fileErrorAt_batchStreamEvents (K i : Nat) (ms : List StreamMsg) :
    (batchStreamEvents i ms).filter (isFileErrorAt K) = [] := by
  induction ms with
  | nil => rfl
  | cons m rest ih =>
    simp only [batchStreamEvents]
    rw [List.filter_append, ih]
    split_ifs <;> simp [isFileErrorAt]

/-- The batch stream loop emits no summary event either. -/
theorem filter_batchComplete_batchStreamEvents (i : Nat) (ms : List StreamMsg) :
    (batchStreamEvents i ms).filter isBatchCompleteEv = [] := by
  induction ms with
  | nil => rfl
  | cons m rest ih =>
    simp only [batchStreamEvents]
    rw [List.filter_append, ih]
    split_ifs <;> simp [isBatchCompleteEv]

/-- The per-file `except` clause performs the best-effort `Failed` status
write on this file's record exactly when its literature id is truthy. -/
theorem batchFailure_record (i : Nat) (f : FileOracle) (info : BatchFileInfo)
    (st : FileState) (m : PyStr) :
    (batchFailure i f info st m).2.record =
      (if truthyId st.literatureId then markFailed f.updateFailed st.record
       else st.record) := by
  by_cases ht : truthyId st.literatureId = true
  · simp only [batchFailure, ht, if_true]
    split <;> rfl
  · simp only [batchFailure, ht, Bool.false_eq_true, if_false]
    split <;> rfl

/-- Per-file behaviour of the batch loop body: its completion flag is
`fileSucceeds`; it emits no summary event; it emits exactly one
`file_error`, carrying its own index, precisely when it fails; a failing
file's saved bytes are deleted; a succeeding file keeps its bytes and ends
with its record Completed; a failing file whose record was created (its
flushed id non-zero) ends with its record marked Failed whenever the
best-effort update succeeds. -/
theorem processFile_spec (i : Nat) (info : BatchFileInfo) (f : FileOracle) :
    ((processFile i info f).2.2 = fileSucceeds f) ∧
    ((processFile i info f).1.filter isBatchCompleteEv = []) ∧
    (∀ K, ((processFile i info f).1.filter (isFileErrorAt K)).length =
      if i = K ∧ fileSucceeds f = false then 1 else 0) ∧
    (fileSucceeds f = false → info.fullPath ≠ [] →
      (processFile i info f).2.1.fileOnDisk = false) ∧
    (fileSucceeds f = true →
      (processFile i info f).2.1.fileOnDisk = true ∧
      ((processFile i info f).2.1.record).map RecordState.status = some 1) ∧
    (∀ (lid : Nat) (content : PyStr), f.extract = PyResult.ok content →
      f.create = PyResult.ok lid → lid ≠ 0 →
      f.updateFailed = PyResult.ok () → fileSucceeds f = false →
      ((processFile i info f).2.1.record).map RecordState.status = some 2) := by
  cases hext : f.extract with
  | err m lit =>
    have hsucc : fileSucceeds f = false := by
      simp [fileSucceeds, PyResult.isOk, hext]
    refine ⟨?_, ?_, ?_, ?_, ?_, ?_⟩
    · simp [processFile, hext, batchFailure, hsucc]
    · simp [processFile, hext, batchFailure, isBatchCompleteEv]
    · intro K
      by_cases hik : i = K
      · simp [processFile, hext, batchFailure, isFileErrorAt, hik, hsucc]
      · simp [processFile, hext, batchFailure, isFileErrorAt, hik, hsucc]
    · intro _ hpath
      simp only [processFile, hext, batchFailure]
      split <;> simp [truthyPath, hpath]
    · intro hs
      rw [hsucc] at hs
      exact absurd hs (by simp)
    · intro _ _ hex _ _ _ _
      exact PyResult.noConfusion hex
  | ok content =>
    cases hcr : f.create with
    | err m lit =>
      have hsucc : fileSucceeds f = false := by
        simp [fileSucceeds, PyResult.isOk, hext, hcr]
      refine ⟨?_, ?_, ?_, ?_, ?_, ?_⟩
      · simp [processFile, hext, hcr, batchFailure, hsucc]
      · simp [processFile, hext, hcr, batchFailure, isBatchCompleteEv]
      · intro K
        by_cases hik : i = K
        · simp [processFile, hext, hcr, batchFailure, isFileErrorAt, hik, hsucc]
        · simp [processFile, hext, hcr, batchFailure, isFileErrorAt, hik, hsucc]
      · intro _ hpath
        simp only [processFile, hext, hcr, batchFailure]
        split <;> simp [truthyPath, hpath]
      · intro hs
        rw [hsucc] at hs
        exact absurd hs (by simp)
      · intro _ _ _ hcr1 _ _ _
        exact PyResult.noConfusion hcr1
    | ok lid =>
      cases hcc : f.commitCreate with
      | err m lit =>
        have hsucc : fileSucceeds f = false := by
          simp [fileSucceeds, PyResult.isOk, hext, hcr, hcc]
        refine ⟨?_, ?_, ?_, ?_, ?_, ?_⟩
        · simp [processFile, hext, hcr, hcc, batchFailure, hsucc]
        · simp [processFile, hext, hcr, hcc, batchFailure, isBatchCompleteEv]
        · intro K
          by_cases hik : i = K
          · simp [processFile, hext, hcr, hcc, batchFailure, isFileErrorAt, hik, hsucc]
          · simp [processFile, hext, hcr, hcc, batchFailure, isFileErrorAt, hik, hsucc]
        · intro _ hpath
          simp only [processFile, hext, hcr, hcc, batchFailure]
          split <;> simp [truthyPath, hpath]
        · intro hs
          rw [hsucc] at hs
          exact absurd hs (by simp)
        · intro lid1 _ _ hcr1 hlid hupd _
          injection hcr1 with hl
          subst hl
          simp [processFile, hext, hcr, hcc, batchFailure_record, truthyId,
                hlid, hupd, markFailed]
      | ok u1 =>
        cases hse : f.streamErr with
        | some e =>
          have hsucc : fileSucceeds f = false := by
            simp [fileSucceeds, PyResult.isOk, hext, hcr, hcc, hse]
          refine ⟨?_, ?_, ?_, ?_, ?_, ?_⟩
          · simp [processFile, hext, hcr, hcc, hse, batchFailure, hsucc]
          · simp [processFile, hext, hcr, hcc, hse, batchFailure, isBatchCompleteEv,
                  List.filter_append, filter_batchComplete_batchStreamEvents]
          · intro K
            by_cases hik : i = K
            · simp [processFile, hext, hcr, hcc, hse, batchFailure, isFileErrorAt, hik, hsucc,
                    List.filter_append, filter_fileErrorAt_batchStreamEvents]
            · simp [processFile, hext, hcr, hcc, hse, batchFailure, isFileErrorAt, hik, hsucc,
                    List.filter_append, filter_fileErrorAt_batchStreamEvents]
          · intro _ hpath
            simp only [processFile, hext, hcr, hcc, hse, batchFailure]
            split <;> simp [truthyPath, hpath]
          · intro hs
            rw [hsucc] at hs
            exact absurd hs (by simp)
          · intro lid1 _ _ hcr1 hlid hupd _
            injection hcr1 with hl
            subst hl
            simp [processFile, hext, hcr, hcc, hse, batchFailure_record, truthyId,
                  hlid, hupd, markFailed]
        | none =>
          cases huc : f.updateComplete with
          | err m lit =>
            have hsucc : fileSucceeds f = false := by
              simp [fileSucceeds, PyResult.isOk, hext, hcr, hcc, hse, huc]
            refine ⟨?_, ?_, ?_, ?_, ?_, ?_⟩
            · simp [processFile, hext, hcr, hcc, hse, huc, batchFailure, hsucc]
            · simp [processFile, hext, hcr, hcc, hse, huc, batchFailure, isBatchCompleteEv,
                    List.filter_append, filter_batchComplete_batchStreamEvents]
            · intro K
              by_cases hik : i = K
              · simp [processFile, hext, hcr, hcc, hse, huc, batchFailure, isFileErrorAt, hik, hsucc,
                      List.filter_append, filter_fileErrorAt_batchStreamEvents]
              · simp [processFile, hext, hcr, hcc, hse, huc, batchFailure, isFileErrorAt, hik, hsucc,
                      List.filter_append, filter_fileErrorAt_batchStreamEvents]
            · intro _ hpath
              simp only [processFile, hext, hcr, hcc, hse, huc, batchFailure]
              split <;> simp [truthyPath, hpath]
            · intro hs
              rw [hsucc] at hs
              exact absurd hs (by simp)
            · intro lid1 _ _ hcr1 hlid hupd _
              injection hcr1 with hl
              subst hl
              simp [processFile, hext, hcr, hcc, hse, huc, batchFailure_record, truthyId,
                    hlid, hupd, markFailed]
          | ok u2 =>
            cases hfc : f.commitComplete with
            | err m lit =>
              have hsucc : fileSucceeds f = false := by
                simp [fileSucceeds, PyResult.isOk, hext, hcr, hcc, hse, huc, hfc]
              refine ⟨?_, ?_, ?_, ?_, ?_, ?_⟩
              · simp [processFile, hext, hcr, hcc, hse, huc, hfc, batchFailure, hsucc]
              · simp [processFile, hext, hcr, hcc, hse, huc, hfc, batchFailure, isBatchCompleteEv,
                      List.filter_append, filter_batchComplete_batchStreamEvents]
              · intro K
                by_cases hik : i = K
                · simp [processFile, hext, hcr, hcc, hse, huc, hfc, batchFailure, isFileErrorAt, hik, hsucc,
                        List.filter_append, filter_fileErrorAt_batchStreamEvents]
                · simp [processFile, hext, hcr, hcc, hse, huc, hfc, batchFailure, isFileErrorAt, hik, hsucc,
                        List.filter_append, filter_fileErrorAt_batchStreamEvents]
              · intro _ hpath
                simp only [processFile, hext, hcr, hcc, hse, huc, hfc, batchFailure]
                split <;> simp [truthyPath, hpath]
              · intro hs
                rw [hsucc] at hs
                exact absurd hs (by simp)
              · intro lid1 _ _ hcr1 hlid hupd _
                injection hcr1 with hl
                subst hl
                simp [processFile, hext, hcr, hcc, hse, huc, hfc, batchFailure_record, truthyId,
                      hlid, hupd, markFailed]
            | ok u3 =>
              have hsucc : fileSucceeds f = true := by
                simp [fileSucceeds, PyResult.isOk, hext, hcr, hcc, hse, huc, hfc]
              refine ⟨?_, ?_, ?_, ?_, ?_, ?_⟩
              · simp [processFile, hext, hcr, hcc, hse, huc, hfc, hsucc]
              · simp [processFile, hext, hcr, hcc, hse, huc, hfc,
                      isBatchCompleteEv, List.filter_append,
                      filter_batchComplete_batchStreamEvents]
              · intro K
                simp [processFile, hext, hcr, hcc, hse, huc, hfc, hsucc,
                      isFileErrorAt, List.filter_append,
                      filter_fileErrorAt_batchStreamEvents]
              · intro hs
                rw [hsucc] at hs
                exact absurd hs (by simp)
              · intro _
                simp [processFile, hext, hcr, hcc, hse, huc, hfc]
              · intro _ _ _ _ _ _ hsf
                rw [hsucc] at hsf
                exact Bool.noConfusion hsf

/-- One state per file, in order. -/
theorem processFiles_length (i : Nat) (files : List (BatchFileInfo × FileOracle)) :
    (processFiles i files).2.1.length = files.length := by
  induction files generalizing i with
  | nil => rfl
  | cons p rest ih => simp [processFiles, ih]

/-- The final state of the file at position `K` is the state its own loop
body produces — other files' outcomes cannot affect it. -/
theorem processFiles_getElem? (i K : Nat) (files : List (BatchFileInfo × FileOracle)) :
    (processFiles i files).2.1[K]? =
      (files[K]?).map (fun p => (processFile (i + K) p.1 p.2).2.1) := by
  induction files generalizing i K with
  | nil => simp [processFiles]
  | cons p rest ih =>
    cases K with
    | zero => simp [processFiles]
    | succ K1 =>
      have harith : i + 1 + K1 = i + (K1 + 1) := by omega
      simp only [processFiles, List.getElem?_cons_succ]
      rw [ih (i + 1) K1, harith]

/-- The completed count is the number of files whose processing succeeds. -/
theorem processFiles_count (i : Nat) (files : List (BatchFileInfo × FileOracle)) :
    (processFiles i files).2.2 = files.countP (fun p => fileSucceeds p.2) := by
  induction files generalizing i with
  | nil => rfl
  | cons p rest ih =>
    rw [List.countP_cons]
    have h1 := (processFile_spec i p.1 p.2).1
    simp only [processFiles, h1, ih (i + 1)]
    cases hs : fileSucceeds p.2
    · simp [hs]
    · simp [hs]
      omega

/-- The per-file loop emits no summary event. -/
theorem processFiles_no_batchComplete (i : Nat)
    (files : List (BatchFileInfo × FileOracle)) :
    (processFiles i files).1.filter isBatchCompleteEv = [] := by
  induction files generalizing i with
  | nil => rfl
  | cons p rest ih =>
    simp [processFiles, List.filter_append, ih (i + 1),
          (processFile_spec i p.1 p.2).2.1]

/-- Files processed from position `j` on never emit a `file_error` with an
index below `j`. -/
theorem processFiles_fileError_lt (j k : Nat)
    (files : List (BatchFileInfo × FileOracle)) (hk : k < j) :
    ((processFiles j files).1.filter (isFileErrorAt k)).length = 0 := by
  induction files generalizing j with
  | nil => rfl
  | cons p rest ih =>
    have hjk : ¬ (j = k ∧ fileSucceeds p.2 = false) := by
      intro hc
      omega
    have hhead := (processFile_spec j p.1 p.2).2.2.1 k
    rw [if_neg hjk] at hhead
    simp [processFiles, List.filter_append, hhead, ih (j + 1) (by omega)]

/-- Exactly one `file_error` carries the index of a failing file, none
carries the index of a succeeding file. -/
theorem processFiles_fileError_count (i K : Nat)
    (files : List (BatchFileInfo × FileOracle)) (info : BatchFileInfo)
    (f : FileOracle) (h : files[K]? = some (info, f)) :
    ((processFiles i files).1.filter (isFileErrorAt (i + K))).length =
      if fileSucceeds f = true then 0 else 1 := by
  induction files generalizing i K with
  | nil => simp at h
  | cons p rest ih =>
    cases K with
    | zero =>
      simp only [List.getElem?_cons_zero, Option.some.injEq] at h
      subst h
      have hhead := (processFile_spec i info f).2.2.1 (i + 0)
      have htail := processFiles_fileError_lt (i + 1) (i + 0) rest (by omega)
      show (List.filter (isFileErrorAt (i + 0))
          ((processFile i info f).1 ++ (processFiles (i + 1) rest).1)).length =
        if fileSucceeds f = true then 0 else 1
      rw [List.filter_append, List.length_append, hhead, htail]
      cases hs : fileSucceeds f with
      | false =>
        rw [if_pos ⟨by omega, rfl⟩, if_neg Bool.false_ne_true]
      | true =>
        rw [if_neg (fun hc => absurd hc.2 (by simp)), if_pos rfl]
    | succ K1 =>
      simp only [List.getElem?_cons_succ] at h
      have hhead := (processFile_spec i p.1 p.2).2.2.1 (i + (K1 + 1))
      have hne : ¬ (i = i + (K1 + 1) ∧ fileSucceeds p.2 = false) := by
        intro hc
        omega
      rw [if_neg hne] at hhead
      have htail := ih (i + 1) K1 h
      show (List.filter (isFileErrorAt (i + (K1 + 1)))
          ((processFile i p.1 p.2).1 ++ (processFiles (i + 1) rest).1)).length =
        if fileSucceeds f = true then 0 else 1
      rw [List.filter_append, List.length_append, hhead,
          show i + (K1 + 1) = i + 1 + K1 from by omega, htail, Nat.zero_add]

/-- C9: in batch mode (with an AI model resolved), the outward stream
always ends with a single `batch_complete` event reporting
completed-count/total-count, whatever the per-file outcomes; for every
file K that fails after the upfront save phase, exactly one `file_error`
event carrying K's batch index is emitted, K's saved bytes are deleted and
K's record (if created and its best-effort update succeeds) is the only
one marked Failed; every file's final state is a function of its own
outcomes alone, so processing of the remaining files continues: a
succeeding file J emits no `file_error`, keeps its bytes and ends
Completed. -/
theorem c9_batch_isolation :
    ∀ files : List (BatchFileInfo × FileOracle),
      ((batch_import_run true files).1.filter isBatchCompleteEv =
         [Ev.batchComplete
           (batchCompleteMsg (batch_import_run true files).2.2 files.length)] ∧
       (batch_import_run true files).1.getLast? =
         some (Ev.batchComplete
           (batchCompleteMsg (batch_import_run true files).2.2 files.length)) ∧
       (batch_import_run true files).2.2 =
         files.countP (fun p => fileSucceeds p.2)) ∧
      (∀ (K : Nat) (info : BatchFileInfo) (f : FileOracle),
        files[K]? = some (info, f) →
        (((batch_import_run true files).1.filter (isFileErrorAt K)).length =
          if fileSucceeds f = true then 0 else 1) ∧
        ((batch_import_run true files).2.1[K]? =
          some (processFile K info f).2.1) ∧
        (fileSucceeds f = false → info.fullPath ≠ [] →
          (processFile K info f).2.1.fileOnDisk = false) ∧
        (fileSucceeds f = true →
          (processFile K info f).2.1.fileOnDisk = true ∧
          ((processFile K info f).2.1.record).map RecordState.status = some 1) ∧
        (∀ (lid : Nat) (content : PyStr), f.extract = PyResult.ok content →
          f.create = PyResult.ok lid → lid ≠ 0 →
          f.updateFailed = PyResult.ok () → fileSucceeds f = false →
          ((processFile K info f).2.1.record).map RecordState.status = some 2)) := by
  intro files
  constructor
  · refine ⟨?_, ?_, ?_⟩
    · simp [batch_import_run, List.filter_append,
            processFiles_no_batchComplete, isBatchCompleteEv]
    · simp [batch_import_run, List.getLast?_concat]
    · simp [batch_import_run, processFiles_count]
  · intro K info f h
    refine ⟨?_, ?_, ?_, ?_, ?_⟩
    · have hc := processFiles_fileError_count 0 K files info f h
      rw [Nat.zero_add] at hc
      show ((((processFiles 0 files).1 ++
          [Ev.batchComplete (batchCompleteMsg (processFiles 0 files).2.2
            files.length)]).filter (isFileErrorAt K)).length) = _
      rw [List.filter_append, List.length_append, hc]
      simp [isFileErrorAt]
    · have hg := processFiles_getElem? 0 K files
      rw [Nat.zero_add, h] at hg
      show (processFiles 0 files).2.1[K]? = _
      rw [hg]
      rfl
    · exact (processFile_spec K info f).2.2.2.1
    · exact (processFile_spec K info f).2.2.2.2.1
    · exact (processFile_spec K info f).2.2.2.2.2

/-- Witness for C9: a three-file batch in which file 0 fails extraction,
file 1 completes, and file 2 fails mid-stream after its record was
created; one `file_error` carries index 0, none carries index 1, one
carries index 2, file 0's bytes are gone, file 1's record ends Completed,
file 2's bytes are gone and its record ends Failed, and the stream ends
with `batch_complete` reporting 1/3. -/
theorem c9_batch_isolation_witness :
    (batchFiles[0]? = some (batchInfo0, batchOracle0) ∧
     fileSucceeds batchOracle0 = false ∧
     batchInfo0.fullPath ≠ [] ∧
     ((batch_import_run true batchFiles).1.filter (isFileErrorAt 0)).length = 1 ∧
     (processFile 0 batchInfo0 batchOracle0).2.1.fileOnDisk = false) ∧
    (batchFiles[1]? = some (batchInfo1, batchOracle1) ∧
     fileSucceeds batchOracle1 = true ∧
     ((batch_import_run true batchFiles).1.filter (isFileErrorAt 1)).length = 0 ∧
     (processFile 1 batchInfo1 batchOracle1).2.1.fileOnDisk = true ∧
     ((processFile 1 batchInfo1 batchOracle1).2.1.record).map RecordState.status =
       some 1) ∧
    (batchFiles[2]? = some (batchInfo2, batchOracle2) ∧
     fileSucceeds batchOracle2 = false ∧
     batchOracle2.extract = PyResult.ok (("three!").toList) ∧
     batchOracle2.create = PyResult.ok 13 ∧
     (13 : Nat) ≠ 0 ∧
     batchOracle2.updateFailed = PyResult.ok () ∧
     ((batch_import_run true batchFiles).1.filter (isFileErrorAt 2)).length = 1 ∧
     (processFile 2 batchInfo2 batchOracle2).2.1.fileOnDisk = false ∧
     ((processFile 2 batchInfo2 batchOracle2).2.1.record).map RecordState.status =
       some 2) ∧
    (batch_import_run true batchFiles).1.getLast? =
      some (Ev.batchComplete (batchCompleteMsg 1 3)) := by
  have h0 := (c9_batch_isolation batchFiles).2 0 batchInfo0 batchOracle0 rfl
  have h1 := (c9_batch_isolation batchFiles).2 1 batchInfo1 batchOracle1 rfl
  have h2 := (c9_batch_isolation batchFiles).2 2 batchInfo2 batchOracle2 rfl
  have hlast := (c9_batch_isolation batchFiles).1.2.1
  refine ⟨⟨rfl, rfl, by decide, ?_, h0.2.2.1 rfl (by decide)⟩,
          ⟨rfl, rfl, ?_, (h1.2.2.2.1 rfl).1, (h1.2.2.2.1 rfl).2⟩,
          ⟨rfl, rfl, rfl, rfl, by decide, rfl, ?_,
           h2.2.2.1 rfl (by decide),
           h2.2.2.2.2 13 (("three!").toList) rfl rfl (by decide) rfl rfl⟩, ?_⟩
  · have h := h0.1
    rw [if_neg (by decide)] at h
    exact h
  · have h := h1.1
    rw [if_pos (by decide)] at h
    exact h
  · have h := h2.1
    rw [if_neg (by decide)] at h
    exact h
  · exact hlast
